import Mathlib

/-! # dhtMaster: a shallow embedding of `DHT.cpp` / `DHT.h`

The driver state (`class DHT`) is a structure; every member function that
mutates the object is a function from state to state.  The environment is made
explicit:

* `millis()` is the argument `now` (a `uint32_t` millisecond clock);
* the 82 consecutive results of `expectPulse` inside one `getDataMeasure`
  are the argument `pulses : Nat → Nat` (`pulses 0`, `pulses 1` are the two
  acknowledgement pulses, `pulses (2 + i)` is what is stored in `cycles[i]`);
* the pin sampled by `expectPulse` is a stream `pin : Nat → Bool`, and a loop
  that may not terminate takes a `fuel` bound on its number of tests;
* the library function `sqrt` of the heat-index correction is a parameter.

Machine integers are natural numbers, reduced modulo `2 ^ 8` / `2 ^ 32` where
the source stores into a `uint8_t` / `uint32_t`.  `NAN` is `none`.  The
decoders and the heat index are given in exact rational arithmetic; the
decoders are given a second time with every operation rounded as `float` and
`double` arithmetic rounds it (`umidityFloat`, `temperatureFloat`).
-/

namespace DhtMaster

/-! ## Constants of `DHT.h` -/

/-- The enum `DhtType` (`AM2301` is an alias of `DHT21`: both are `21`). -/
inductive DhtType where
  | DHT11
  | DHT12
  | DHT21
  | DHT22
  deriving DecidableEq, Repr

/-- Macro `SENSOR_LENGTH` (`#define SENSOR_LENGTH 5`). -/
def SENSOR_LENGTH : Nat := 5

/-- Macro `RESET_BYTES` (`#define RESET_BYTES 0x00`). -/
def RESET_BYTES : Nat := 0x00

/-- Macro `TIME_PER_CYCLE_MICROSEC` (`#define TIME_PER_CYCLE_MICROSEC 80`). -/
def TIME_PER_CYCLE_MICROSEC : Nat := 80

/-- Macro `TIME_BETWEEN_SAMPLES` (`#define TIME_BETWEEN_SAMPLES 2000`). -/
def TIME_BETWEEN_SAMPLES : Nat := 2000

/-- Macro `TIMEOUT` (`#define TIMEOUT UINT32_MAX`). -/
def TIMEOUT : Nat := 4294967295

/-- Subtraction of two `uint32_t` values (wraps modulo `2 ^ 32`). -/
def sub32 (a b : Nat) : Nat := (a % 4294967296 + 4294967296 - b % 4294967296) % 4294967296

/-! ## The object state -/

/-- The data members of `class DHT`.  `data` is the array `uint8_t data[5]`,
read and written at indices `0 .. 4` only. -/
structure DHT where
  data : Nat → Nat
  pinout : Nat
  sensorType : DhtType
  forcedMode : Bool
  lastReadingTime : Nat
  numberOfCycles : Nat
  timeToReadSensor : Bool
  pullTime : Nat

/-- The assignment `data[k] = v` to a `uint8_t` cell. -/
def writeByte (d : Nat → Nat) (k v : Nat) : Nat → Nat :=
  fun j => if j = k then v % 256 else d j

/-- A buffer holding the five given bytes (used to state properties of frames). -/
def frame (b0 b1 b2 b3 b4 : Nat) : Nat → Nat :=
  fun j => match j with
    | 0 => b0
    | 1 => b1
    | 2 => b2
    | 3 => b3
    | 4 => b4
    | _ => 0

namespace DHT

/-! ## Sampling policy -/

/-- Member function `DHT::begin` with `millis()` returning `now`. -/
def begin (now : Nat) (s : DHT) : DHT :=
  { s with lastReadingTime := sub32 now TIME_BETWEEN_SAMPLES }

/-- Member function `DHT::turnOnForcedMode` -/
def turnOnForcedMode (s : DHT) : DHT := { s with forcedMode := true }

/-- Member function `DHT::turnOffForcedMode` -/
def turnOffForcedMode (s : DHT) : DHT := { s with forcedMode := false }

/-- Member function `DHT::isSensorAvailable` with `millis()` returning `now`: the returned
boolean and the state after the call. -/
def isSensorAvailable (now : Nat) (s : DHT) : Bool × DHT :=
  let currentTime := now % 4294967296
  let timeSinceLastReading := sub32 currentTime s.lastReadingTime
  let availableToRead :=
    if (!s.forcedMode && decide (timeSinceLastReading < TIME_BETWEEN_SAMPLES)) = true then false
    else true
  (availableToRead, { s with lastReadingTime := currentTime })

/-! ## Frame acquisition -/

/-- Member function `DHT::verifyTimeout` -/
def verifyTimeout (inputToTest : Nat) (s : DHT) : DHT :=
  if inputToTest = TIMEOUT then { s with timeToReadSensor := false } else s

/-- One iteration `i` of the classification loop of `getDataMeasure`
(`cycles` is the local array filled by the capture loop). -/
def classifyStep (cycles : Nat → Nat) (i : Nat) (s : DHT) : DHT :=
  let lowCycles := cycles (2 * i)
  let highCycles := cycles (2 * i + 1)
  let s1 := verifyTimeout lowCycles s
  let s2 := verifyTimeout highCycles s1
  let s3 := { s2 with data := writeByte s2.data (i / 8) (s2.data (i / 8) <<< 1) }
  if highCycles > lowCycles then
    { s3 with data := writeByte s3.data (i / 8) (s3.data (i / 8) ||| 1) }
  else s3

/-- The classification loop `for (i = 0; i < n; ++i)` of `getDataMeasure`:
iterations `0, 1, .., n - 1` in this order. -/
def classifyLoop (cycles : Nat → Nat) : Nat → DHT → DHT
  | 0, s => s
  | n + 1, s => classifyStep cycles n (classifyLoop cycles n s)

/-- Member function `DHT::getDataMeasure`, the 82 calls of `expectPulse` returning
`pulses 0, .., pulses 81` in this order. -/
def getDataMeasure (pulses : Nat → Nat) (s : DHT) : DHT :=
  let s1 := verifyTimeout (pulses 0) s
  let s2 := verifyTimeout (pulses 1) s1
  let cycles : Nat → Nat := fun i => pulses (2 + i)
  classifyLoop cycles (TIME_PER_CYCLE_MICROSEC / 2) s2

/-- Member function `DHT::isChecksumPassed` -/
def isChecksumPassed (s : DHT) : DHT :=
  let checksum := ((s.data 0 + s.data 1 + s.data 2 + s.data 3) &&& 0xFF) % 256
  if s.data 4 = checksum then { s with timeToReadSensor := true }
  else { s with timeToReadSensor := false }

/-- The zeroing loop `for (i = 0; i < n; i++) data[i] = RESET_BYTES`. -/
def resetLoop : Nat → DHT → DHT
  | 0, s => s
  | n + 1, s =>
    let s1 := resetLoop n s
    { s1 with data := writeByte s1.data n RESET_BYTES }

/-- Member function `DHT::getSamples` (the pin set-up and the delays have no effect on the
state). -/
def getSamples (pulses : Nat → Nat) (s : DHT) : DHT :=
  isChecksumPassed (getDataMeasure pulses (resetLoop SENSOR_LENGTH s))

/-- Member function `DHT::tryGetSamples` -/
def tryGetSamples (now : Nat) (pulses : Nat → Nat) (s : DHT) : DHT :=
  let r := isSensorAvailable now s
  if r.1 = true then getSamples pulses r.2 else r.2

/-! ## Decoding -/

/-- Member function `DHT::temperatureAccordingSensorType`; `none` is `NAN`. -/
def temperatureAccordingSensorType (s : DHT) : Option ℚ :=
  if s.timeToReadSensor = true then
    match s.sensorType with
    | .DHT11 =>
      let temperature : ℚ := (s.data 2 : ℚ)
      let temperature := if s.data 3 &&& 0x80 ≠ 0 then -1 - temperature else temperature
      some (temperature + ((s.data 3 &&& 0x0f : Nat) : ℚ) * (1 / 10))
    | .DHT12 =>
      let temperature : ℚ := (s.data 2 : ℚ)
      let temperature := temperature + ((s.data 3 &&& 0x0f : Nat) : ℚ) * (1 / 10)
      some (if s.data 2 &&& 0x80 ≠ 0 then temperature * (-1) else temperature)
    | .DHT22 | .DHT21 =>
      let temperature : ℚ := ((((s.data 2 &&& 0x7F) <<< 8) % 65536 ||| s.data 3 : Nat) : ℚ)
      let temperature := temperature * (1 / 10)
      some (if s.data 2 &&& 0x80 ≠ 0 then temperature * (-1) else temperature)
  else none

/-- Member function `DHT::umidityAccordingSensorType`; `none` is `NAN`. -/
def umidityAccordingSensorType (s : DHT) : Option ℚ :=
  if s.timeToReadSensor = true then
    match s.sensorType with
    | .DHT11 | .DHT12 =>
      some ((s.data 0 : ℚ) + (s.data 1 : ℚ) * (1 / 10))
    | .DHT22 | .DHT21 =>
      let umidity : ℚ := ((((s.data 0) <<< 8) % 65536 ||| s.data 1 : Nat) : ℚ)
      some (umidity * (1 / 10))
  else none

/-- Member function `DHT::getHumidity`: the returned value and the state after the call. -/
def getHumidity (now : Nat) (pulses : Nat → Nat) (s : DHT) : Option ℚ × DHT :=
  let s1 := tryGetSamples now pulses s
  (umidityAccordingSensorType s1, s1)

/-- Member function `DHT::getTemperatureCelsius`: the returned value and the state after the
call. -/
def getTemperatureCelsius (now : Nat) (pulses : Nat → Nat) (s : DHT) : Option ℚ × DHT :=
  let s1 := tryGetSamples now pulses s
  (temperatureAccordingSensorType s1, s1)

/-! ## Decoding in binary floating point

The decoders above compute in exact arithmetic.  The definitions below follow
the same statements of `DHT.cpp` with every arithmetic operation and
conversion rounded as the C++ types prescribe: `float` is IEEE 754 binary32
(24-bit significand), the literal `0.1` and every operation with it are
`double`, whose significand has `doubleBits` bits (53 for binary64; 24 where
`double` is binary32, as with avr-gcc).  Rounding is to nearest, ties to even.
The exponent range is not modelled: every value that occurs is zero or has a
magnitude between `2 ^ (-4)` and `2 ^ 13`. -/

/-- The integer nearest to `q`, the even one when `q` is half-way. -/
def roundHalfEven (q : ℚ) : ℤ :=
  if q - ⌊q⌋ < 1 / 2 then ⌊q⌋
  else if 1 / 2 < q - ⌊q⌋ then ⌊q⌋ + 1
  else if ⌊q⌋ % 2 = 0 then ⌊q⌋
  else ⌊q⌋ + 1

/-- The binary floating-point number with a `p`-bit significand nearest to
`x` (ties to even). -/
def roundFloat (p : Nat) (x : ℚ) : ℚ :=
  if x = 0 then 0
  else (roundHalfEven (x / 2 ^ (Int.log 2 |x| + 1 - (p : ℤ))) : ℚ)
    * 2 ^ (Int.log 2 |x| + 1 - (p : ℤ))

/-- Member function `DHT::umidityAccordingSensorType` in floating-point
arithmetic; `none` is `NAN`. -/
def umidityFloat (doubleBits : Nat) (s : DHT) : Option ℚ :=
  if s.timeToReadSensor = true then
    match s.sensorType with
    | .DHT11 | .DHT12 =>
      some (roundFloat 24 (roundFloat doubleBits ((s.data 0 : ℚ)
        + roundFloat doubleBits ((s.data 1 : ℚ) * roundFloat doubleBits (1 / 10)))))
    | .DHT22 | .DHT21 =>
      let umidity : ℚ := roundFloat 24 ((((s.data 0) <<< 8) % 65536 ||| s.data 1 : Nat) : ℚ)
      some (roundFloat 24 (roundFloat doubleBits (umidity * roundFloat doubleBits (1 / 10))))
  else none

/-- Member function `DHT::temperatureAccordingSensorType` in floating-point
arithmetic; `none` is `NAN`. -/
def temperatureFloat (doubleBits : Nat) (s : DHT) : Option ℚ :=
  if s.timeToReadSensor = true then
    match s.sensorType with
    | .DHT11 =>
      let temperature : ℚ := roundFloat 24 (s.data 2 : ℚ)
      let temperature :=
        if s.data 3 &&& 0x80 ≠ 0 then roundFloat 24 (-1 - temperature) else temperature
      some (roundFloat 24 (roundFloat doubleBits (temperature
        + roundFloat doubleBits (((s.data 3 &&& 0x0f : Nat) : ℚ) * roundFloat doubleBits (1 / 10)))))
    | .DHT12 =>
      let temperature : ℚ := roundFloat 24 (s.data 2 : ℚ)
      let temperature := roundFloat 24 (roundFloat doubleBits (temperature
        + roundFloat doubleBits (((s.data 3 &&& 0x0f : Nat) : ℚ) * roundFloat doubleBits (1 / 10))))
      some (if s.data 2 &&& 0x80 ≠ 0 then roundFloat 24 (temperature * (-1)) else temperature)
    | .DHT22 | .DHT21 =>
      let temperature : ℚ :=
        roundFloat 24 ((((s.data 2 &&& 0x7F) <<< 8) % 65536 ||| s.data 3 : Nat) : ℚ)
      let temperature := roundFloat 24 (roundFloat doubleBits (temperature * roundFloat doubleBits (1 / 10)))
      some (if s.data 2 &&& 0x80 ≠ 0 then roundFloat 24 (temperature * (-1)) else temperature)
  else none

/-! ## Derived quantities -/

/-- Member function `DHT::getTemperatureFahrenheit`: the returned value and the
state after the call. -/
def getTemperatureFahrenheit (now : Nat) (pulses : Nat → Nat) (s : DHT) : Option ℚ × DHT :=
  let r := getTemperatureCelsius now pulses s
  (r.1.map (fun celsius => celsius * 1.8 + 32), r.2)

/-- Member function `DHT::isAdjustmentNeed` -/
def isAdjustmentNeed (heatIndex : ℚ) : Bool :=
  let adjustmentNeed := false
  if heatIndex < 80 then true else adjustmentNeed

/-- Member function `DHT::heatIndexAdjustment`; `sqrt` stands for the library
function `sqrt`, used by the low-humidity correction only. -/
def heatIndexAdjustment (sqrt : ℚ → ℚ) (temperature relativeHumidity : ℚ) : ℚ :=
  let conditionAdjust1 : Bool :=
    decide (relativeHumidity < 13) && decide (temperature ≥ 80.0) && decide (temperature ≤ 112.0)
  let conditionAdjust2 : Bool :=
    decide (relativeHumidity > 85.0) && decide (temperature ≥ 80.0) && decide (temperature ≤ 87.0)
  let heatIndex : ℚ :=
    -42.379 + 2.04901523 * temperature + 10.14333127 * relativeHumidity +
      -0.22475541 * temperature * relativeHumidity +
      -0.00683783 * temperature ^ 2 +
      -0.05481717 * relativeHumidity ^ 2 +
      0.00122874 * temperature ^ 2 * relativeHumidity +
      0.00085282 * temperature * relativeHumidity ^ 2 +
      -0.00000199 * temperature ^ 2 * relativeHumidity ^ 2
  if conditionAdjust1 = true then
    heatIndex - ((13.0 - relativeHumidity) * 0.25) * sqrt ((17.0 - |temperature - 95.0|) * 0.05882)
  else if conditionAdjust2 = true then
    heatIndex + ((relativeHumidity - 85.0) * 0.1) * ((87.0 - temperature) * 0.2)
  else heatIndex

/-- The computation of `DHT::getHeatIndexFahrenheit` on the Fahrenheit
temperature and the relative humidity it has read. -/
def heatIndexFahrenheit (sqrt : ℚ → ℚ) (temperature relativeHumidity : ℚ) : ℚ :=
  let heatIndex : ℚ :=
    0.5 * (temperature + 61.0 + ((temperature - 68.0) * 1.2) + (relativeHumidity * 0.094))
  if isAdjustmentNeed heatIndex = true then heatIndexAdjustment sqrt temperature relativeHumidity
  else heatIndex

/-- Member function `DHT::getHeatIndexFahrenheit`: the temperature read happens
at clock value `now1` with pulse measurements `pulses1`, the humidity read at
`now2` with `pulses2`; a `NAN` operand gives `NAN`. -/
def getHeatIndexFahrenheit (sqrt : ℚ → ℚ) (now1 : Nat) (pulses1 : Nat → Nat) (now2 : Nat)
    (pulses2 : Nat → Nat) (s : DHT) : Option ℚ × DHT :=
  let r1 := getTemperatureFahrenheit now1 pulses1 s
  let r2 := getHumidity now2 pulses2 r1.2
  match r1.1, r2.1 with
  | some temperature, some relativeHumidity =>
    (some (heatIndexFahrenheit sqrt temperature relativeHumidity), r2.2)
  | _, _ => (none, r2.2)

/-! ## Construction -/

/-- The constructor `DHT::DHT()`.  `uninit` supplies the indeterminate values of
the members the constructor does not assign (`data`, `lastReadingTime`,
`timeToReadSensor`); `pinD7` is the board constant `D7` and
`cyclesPerMicrosecond` the factor of `microsecondsToClockCycles`. -/
def construct (pinD7 cyclesPerMicrosecond : Nat) (uninit : DHT) : DHT :=
  { uninit with
    pinout := pinD7 % 256
    sensorType := DhtType.DHT11
    forcedMode := false
    pullTime := 55
    numberOfCycles := (1000 * cyclesPerMicrosecond) % 4294967296 }

/-- Member function `DHT::setSensorType` -/
def setSensorType (sensorType : DhtType) (s : DHT) : DHT :=
  { s with sensorType := sensorType }

/-! ## The pulse timer -/

/-- The modulus of the local counter `count` of `expectPulse`: `uint32_t` when
`(F_CPU > 16000000L) || (F_CPU == 0L)` (`wideCount = true`), `uint16_t`
otherwise. -/
def countModulus (wideCount : Bool) : Nat :=
  if wideCount = true then 4294967296 else 65536

/-- The `while` loop of `expectPulse` on the `__AVR` path.  `count` is the
counter, `pos` the number of pin samples taken so far, `fuel` bounds the number
of further loop tests.  The result is the returned value together with the
total number of pin samples taken; `none` means the loop is still running when
the fuel is used up. -/
def expectPulseAvrLoop (modulus numberOfCycles : Nat) (level : Bool) (pin : Nat → Bool) :
    Nat → Nat → Nat → Option (Nat × Nat)
  | 0, _, _ => none
  | fuel + 1, count, pos =>
    if pin pos = level then
      if count ≥ numberOfCycles then some (TIMEOUT, pos + 1)
      else expectPulseAvrLoop modulus numberOfCycles level pin fuel ((count + 1) % modulus) (pos + 1)
    else some (count, pos + 1)

/-- The `while` loop of `expectPulse` on the generic `digitalRead` path: on
timeout the counter is overwritten with `TIMEOUT` and the loop goes on. -/
def expectPulseGenericLoop (modulus numberOfCycles : Nat) (level : Bool) (pin : Nat → Bool) :
    Nat → Nat → Nat → Option (Nat × Nat)
  | 0, _, _ => none
  | fuel + 1, count, pos =>
    if pin pos = level then
      let count1 := (count + 1) % modulus
      let count2 := if count ≥ numberOfCycles then TIMEOUT % modulus else count1
      expectPulseGenericLoop modulus numberOfCycles level pin fuel count2 (pos + 1)
    else some (count, pos + 1)

/-- Member function `DHT::expectPulse` for the build configuration (`avr`: `__AVR` is defined;
`wideCount`: see `countModulus`), run for at most `fuel` loop tests on the pin
samples `pin 0, pin 1, ..`. -/
def expectPulse (avr wideCount : Bool) (fuel : Nat) (s : DHT) (level : Bool) (pin : Nat → Bool) :
    Option (Nat × Nat) :=
  if avr = true then
    expectPulseAvrLoop (countModulus wideCount) s.numberOfCycles level pin fuel 0 0
  else
    expectPulseGenericLoop (countModulus wideCount) s.numberOfCycles level pin fuel 0 0

/-! ## Acquisition from the pin -/

/-- The `k` consecutive calls of `expectPulse` made by `getDataMeasure`, the
first at `level` and the levels alternating, each call sampling the pin from
the sample after the last one the previous call took.  The result is the list
of returned values, `none` if a call does not return within `fuel` loop tests. -/
def capturePulses (avr wideCount : Bool) (fuel : Nat) (s : DHT) :
    Nat → Bool → (Nat → Bool) → Option (List Nat)
  | 0, _, _ => some []
  | k + 1, level, pin =>
    match expectPulse avr wideCount fuel s level pin with
    | none => none
    | some (v, n) =>
      match capturePulses avr wideCount fuel s k (!level) (fun i => pin (n + i)) with
      | none => none
      | some vs => some (v :: vs)

/-- Member function `DHT::getSamples` with its 82 pulse measurements taken
from the pin: `expectPulse(LOW)`, `expectPulse(HIGH)` for the acknowledgement,
then `expectPulse(LOW)`, `expectPulse(HIGH)` for each of the 40 bits. -/
def getSamplesFromPin (avr wideCount : Bool) (fuel : Nat) (pin : Nat → Bool) (s : DHT) :
    Option DHT :=
  match capturePulses avr wideCount fuel s (2 + TIME_PER_CYCLE_MICROSEC) false pin with
  | none => none
  | some vs => some (getSamples (fun i => vs.getD i 0) s)

end DHT

open DHT

/-! ## Frames and inputs used in the statements -/

/-- The state `s` with its buffer replaced by `d`. -/
def withData (s : DHT) (d : Nat → Nat) : DHT :=
  { s with data := d }

/-- The state `s` with its buffer holding the five given bytes. -/
def withFrame (s : DHT) (b0 b1 b2 b3 b4 : Nat) : DHT :=
  { s with data := frame b0 b1 b2 b3 b4 }

/-- A concrete object: the constructor run on a board with `D7 = 13` and 80
clock cycles per microsecond, the unassigned members holding zero bytes, time
stamp `0` and flag `false`. -/
def sample : DHT :=
  DHT.construct 13 80
    { data := fun _ => 0, pinout := 0, sensorType := DhtType.DHT11, forcedMode := false,
      lastReadingTime := 0, numberOfCycles := 0, timeToReadSensor := false, pullTime := 0 }

/-- The bit read from one (low, high) pair of pulse durations: `1` when the
high pulse is strictly longer than the low pulse, `0` otherwise. -/
def pulseBit (low high : Nat) : Nat := if high > low then 1 else 0

/-- Pulse measurements of an acquisition whose acknowledgement low pulse timed
out and whose 80 data pulses all lasted 10 cycles. -/
def ackTimeoutPulses : Nat → Nat := fun i => if i = 0 then TIMEOUT else 10

/-- Pulse measurements of an acquisition with a 50-cycle low pulse before every
bit and a high pulse of 26 cycles for bits 0, 2, 4, .. and 70 cycles for bits
1, 3, 5, .. -/
def alternatingPulses : Nat → Nat :=
  fun i => if i % 2 = 0 then 50 else if i % 4 = 1 then 70 else 26

/-- The usual DHT21/DHT22 wire encoding of a humidity of `h` tenths of a percent
and a temperature of `t` tenths of a degree: 16-bit humidity, sign-and-magnitude
temperature, sum-modulo-256 checksum. -/
def encodeDHT22 (h : Nat) (t : Int) : Nat → Nat :=
  let b0 := h / 256
  let b1 := h % 256
  let b2 := t.natAbs / 256 + (if t < 0 then 0x80 else 0)
  let b3 := t.natAbs % 256
  frame b0 b1 b2 b3 ((b0 + b1 + b2 + b3) % 256)

/-- Two consecutive calls of `isSensorAvailable`, at clock values `t1` then `t2`:
the two returned booleans. -/
def twoGateCalls (t1 t2 : Nat) (s : DHT) : Bool × Bool :=
  let r1 := isSensorAvailable t1 s
  let r2 := isSensorAvailable t2 r1.2
  (r1.1, r2.1)

/-- Pulse measurements of a sensor that sends the five bytes of `d`, most
significant bit first: 80-cycle acknowledgement pulses, a 50-cycle low pulse
before every bit, a high pulse of 70 cycles for a one and 26 cycles for a
zero. -/
def framePulses (d : Nat → Nat) : Nat → Nat :=
  fun i =>
    if i < 2 then 80
    else if i % 2 = 0 then 50
    else if (d ((i - 3) / 2 / 8) / 2 ^ (7 - (i - 3) / 2 % 8)) % 2 = 1 then 70
    else 26

/-- An object in use: constructed, `begin` at clock value 0, then a humidity
read at clock value 5000 during which the sensor sends the DHT11 frame
`32 00 1B 00 4D`. -/
def afterFirstRead : DHT :=
  (getHumidity 5000 (framePulses (frame 0x32 0x00 0x1B 0x00 0x4D)) (begin 0 sample)).2

/-- The Rothfusz regression polynomial, with the coefficients as the
specification lists them. -/
def rothfuszPolynomial (T RH : ℚ) : ℚ :=
  -42.379 + 2.04901523 * T + 10.14333127 * RH - 0.22475541 * T * RH - 0.00683783 * T ^ 2
    - 0.05481717 * RH ^ 2 + 0.00122874 * T ^ 2 * RH + 0.00085282 * T * RH ^ 2
    - 0.00000199 * T ^ 2 * RH ^ 2

/-- The pulse timer as the specification words it: the number of samples, from
sample `pos` on, during which the pin is at the opposite of `level`, up to the
first sample at `level` (at most `fuel` samples are looked at). -/
def samplesBeforeLevel (level : Bool) (pin : Nat → Bool) : Nat → Nat → Nat
  | 0, _ => 0
  | fuel + 1, pos =>
    if pin pos = level then 0 else 1 + samplesBeforeLevel level pin fuel (pos + 1)

/-- Consecutive calls of `isSensorAvailable` at the given clock values: the
returned booleans, in order. -/
def gateCalls : List Nat → DHT → List Bool
  | [], _ => []
  | t :: ts, s => (isSensorAvailable t s).1 :: gateCalls ts (isSensorAvailable t s).2

/-- Pulse measurements of an acquisition whose acknowledgement low pulse timed
out and whose 80 data pulses are those of `alternatingPulses`. -/
def ackTimeoutAlternating : Nat → Nat :=
  fun i => if i = 0 then TIMEOUT else alternatingPulses i

/-- Pulse measurements that are all the timeout sentinel. -/
def allTimeoutPulses : Nat → Nat := fun _ => TIMEOUT

/-- An object built on a board whose clock gives `microsecondsToClockCycles`
the value 0, so that `numberOfCycles = 0`. -/
def zeroBudget : DHT := DHT.construct 13 0 sample

/-- A pin that reads high for its first three samples and low afterwards. -/
def highThenLow : Nat → Bool := fun i => decide (i < 3)

/-- A pin that reads low for its first two samples and high afterwards. -/
def lowThenHigh : Nat → Bool := fun i => decide (2 ≤ i)

/-- A pin that reads low at every sample. -/
def alwaysLow : Nat → Bool := fun _ => false

/-- A DHT22 object in use: constructed, type set to DHT22, `begin` at clock
value 0, then a temperature read at clock value 5000 during which the sensor
sends the frame `01 F4 01 42 38` (50.0 %, 32.2 °C). -/
def afterWarmRead : DHT :=
  (getTemperatureCelsius 5000 (framePulses (frame 0x01 0xF4 0x01 0x42 0x38))
    (begin 0 (setSensorType DhtType.DHT22 sample))).2

/-- The list `a, b, a, b, ..` of length `k`. -/
def alternating : Nat → Nat → Nat → List Nat
  | 0, _, _ => []
  | k + 1, a, b => a :: alternating k b a

/-- A line that no sensor drives: the pull-up keeps it high at every sample. -/
def stuckHigh : Nat → Bool := fun _ => true

/-- A line that changes level every `half` samples, starting at `first`. -/
def squareWave (half : Nat) (first : Bool) : Nat → Bool :=
  fun i => if (i / half) % 2 = 0 then first else !first

/-- An object built on a 16 MHz AVR board (16 clock cycles per microsecond, so
`numberOfCycles = 16000` and a 16-bit counter in `expectPulse`). -/
def sampleAvr : DHT := DHT.construct 13 16 sample

/-- The 82 pulse measurements `0, TIMEOUT, 0, TIMEOUT, ..`. -/
def stuckHighPulses : Nat → Nat := fun i => (alternating 82 0 TIMEOUT).getD i 0

/-- The 82 pulse measurements of an acquisition whose calls all time out, as a
function of the call index. -/
def capturedTimeouts : Nat → Nat := fun i => (List.replicate 82 TIMEOUT).getD i 0

end DhtMaster

namespace DhtMaster

open DHT

/-! ## Bytes and bit operations -/

theorem and_255_eq_mod (x : Nat) : x &&& 0xFF = x % 256 :=
  Nat.and_pow_two_sub_one_eq_mod x 8

theorem xor_two_pow_ne (c k : Nat) : c ^^^ 2 ^ k ≠ c := by
  intro h
  have h0 : c ^^^ 2 ^ k = c ^^^ 0 := by simpa using h
  have h1 : 2 ^ k = 0 := Nat.xor_right_inj.mp h0
  exact absurd h1 (by positivity)

/-! ## Checksum -/

theorem isChecksumPassed_flag (s : DHT) :
    (isChecksumPassed s).timeToReadSensor
      = decide (s.data 4 = (s.data 0 + s.data 1 + s.data 2 + s.data 3) % 256) := by
  unfold isChecksumPassed
  simp only [and_255_eq_mod, Nat.mod_mod]
  split <;> simp_all

theorem isChecksumPassed_data (s : DHT) : (isChecksumPassed s).data = s.data := by
  unfold isChecksumPassed
  dsimp only
  split <;> rfl

theorem isChecksumPassed_sensorType (s : DHT) :
    (isChecksumPassed s).sensorType = s.sensorType := by
  unfold isChecksumPassed
  dsimp only
  split <;> rfl

/-- C2: `isChecksumPassed` marks the frame `[b0, b1, b2, b3, c]` valid exactly
when `c = (b0 + b1 + b2 + b3) mod 256`; the frame carrying that checksum is
accepted, and flipping any single bit `k` of that checksum (in particular
`k = 0 .. 7`) gives a frame that is rejected. -/
theorem isChecksumPassed_accepts_iff (s : DHT) (b0 b1 b2 b3 c k : Nat) :
    ((isChecksumPassed (withFrame s b0 b1 b2 b3 c)).timeToReadSensor = true
        ↔ c = (b0 + b1 + b2 + b3) % 256)
    ∧ (isChecksumPassed
        (withFrame s b0 b1 b2 b3 ((b0 + b1 + b2 + b3) % 256))).timeToReadSensor = true
    ∧ (isChecksumPassed
        (withFrame s b0 b1 b2 b3 (((b0 + b1 + b2 + b3) % 256) ^^^ 2 ^ k))).timeToReadSensor
          = false := by
  refine ⟨?_, ?_, ?_⟩
  · rw [isChecksumPassed_flag]; simp [withFrame, frame]
  · rw [isChecksumPassed_flag]; simp [withFrame, frame]
  · rw [isChecksumPassed_flag]
    simpa [withFrame, frame] using xor_two_pow_ne ((b0 + b1 + b2 + b3) % 256) k

/-! ## Bit classification -/

theorem verifyTimeout_data (x : Nat) (s : DHT) : (verifyTimeout x s).data = s.data := by
  unfold verifyTimeout
  split <;> rfl

theorem shift_in_zero (v : Nat) : (v <<< 1) % 256 = (2 * v) % 256 := by
  rw [Nat.shiftLeft_eq]; omega

theorem shift_in_one (v : Nat) : (((v <<< 1) % 256) ||| 1) % 256 = (2 * v + 1) % 256 := by
  have h1 : (v <<< 1) % 256 = 2 ^ 1 * (v % 128) := by rw [Nat.shiftLeft_eq]; omega
  rw [h1, ← Nat.mul_add_lt_is_or (by norm_num : 1 < 2 ^ 1)]
  omega

theorem classifyStep_data_at (cycles : Nat → Nat) (i : Nat) (s : DHT) :
    (classifyStep cycles i s).data (i / 8)
      = (2 * s.data (i / 8) + pulseBit (cycles (2 * i)) (cycles (2 * i + 1))) % 256 := by
  unfold classifyStep pulseBit
  dsimp only
  split
  · simp [writeByte, verifyTimeout_data, shift_in_one]
  · simp [writeByte, verifyTimeout_data, shift_in_zero]

theorem classifyStep_data_other (cycles : Nat → Nat) (i j : Nat) (s : DHT) (h : j ≠ i / 8) :
    (classifyStep cycles i s).data j = s.data j := by
  unfold classifyStep
  dsimp only
  split <;> simp [writeByte, verifyTimeout_data, h]

theorem classifyLoop_succ_at (cycles : Nat → Nat) (n k : Nat) (s : DHT) (h : n / 8 = k) :
    (classifyLoop cycles (n + 1) s).data k
      = (2 * (classifyLoop cycles n s).data k
          + pulseBit (cycles (2 * n)) (cycles (2 * n + 1))) % 256 := by
  subst h
  exact classifyStep_data_at cycles n (classifyLoop cycles n s)

theorem classifyLoop_tail (cycles : Nat → Nat) (k m : Nat) (s : DHT) :
    (classifyLoop cycles (8 * k + 8 + m) s).data k = (classifyLoop cycles (8 * k + 8) s).data k := by
  induction m with
  | zero => rfl
  | succ m ih =>
    have h : k ≠ (8 * k + 8 + m) / 8 := by omega
    rw [← ih]
    exact classifyStep_data_other cycles (8 * k + 8 + m) k _ h

theorem pulseBit_le_one (low high : Nat) : pulseBit low high ≤ 1 := by
  unfold pulseBit
  split <;> omega

theorem classifyLoop_block (cycles : Nat → Nat) (k : Nat) (s : DHT) :
    (classifyLoop cycles (8 * k + 8) s).data k
      = ∑ j in Finset.range 8,
          pulseBit (cycles (2 * (8 * k + j))) (cycles (2 * (8 * k + j) + 1)) * 2 ^ (7 - j) := by
  have step : ∀ j, j < 8 → (classifyLoop cycles (8 * k + (j + 1)) s).data k
      = (2 * (classifyLoop cycles (8 * k + j) s).data k
          + pulseBit (cycles (2 * (8 * k + j))) (cycles (2 * (8 * k + j) + 1))) % 256 :=
    fun j hj => classifyLoop_succ_at cycles (8 * k + j) k s (by omega)
  have bit : ∀ j, pulseBit (cycles (2 * (8 * k + j))) (cycles (2 * (8 * k + j) + 1)) ≤ 1 :=
    fun j => pulseBit_le_one _ _
  have h7 := step 7 (by norm_num)
  have h6 := step 6 (by norm_num)
  have h5 := step 5 (by norm_num)
  have h4 := step 4 (by norm_num)
  have h3 := step 3 (by norm_num)
  have h2 := step 2 (by norm_num)
  have h1 := step 1 (by norm_num)
  have h0 := step 0 (by norm_num)
  have b7 := bit 7
  have b6 := bit 6
  have b5 := bit 5
  have b4 := bit 4
  have b3 := bit 3
  have b2 := bit 2
  have b1 := bit 1
  have b0 := bit 0
  simp only [Finset.sum_range_succ, Finset.sum_range_zero]
  norm_num only [] at h0 h1 h2 h3 h4 h5 h6 h7 b0 b1 b2 b3 b4 b5 b6 b7 ⊢
  omega

theorem getDataMeasure_data (pulses : Nat → Nat) (s : DHT) :
    (getDataMeasure pulses s).data
      = (classifyLoop (fun i => pulses (2 + i)) 40 s).data := by
  have h : ∀ (c : Nat → Nat) (n : Nat) (a b : DHT), a.data = b.data →
      (classifyLoop c n a).data = (classifyLoop c n b).data := by
    intro c n a b hab
    induction n with
    | zero => exact hab
    | succ n ih =>
      funext j
      by_cases hj : j = n / 8
      · subst hj
        show (classifyStep c n _).data (n / 8) = (classifyStep c n _).data (n / 8)
        rw [classifyStep_data_at, classifyStep_data_at, ih]
      · show (classifyStep c n _).data j = (classifyStep c n _).data j
        rw [classifyStep_data_other _ _ _ _ hj, classifyStep_data_other _ _ _ _ hj, ih]
  unfold getDataMeasure
  exact h _ _ _ _ (by rw [verifyTimeout_data, verifyTimeout_data])

/-- C3: after `getDataMeasure`, whatever the 82 pulse measurements (timeout
sentinels included) and whatever the buffer held before, byte `k` (`k = 0 .. 4`)
is the most-significant-first packing of bits `8k .. 8k+7`, where bit `i` is
`1` when the high pulse of pair `i` is strictly longer than its low pulse and
`0` otherwise (a tie gives `0`). -/
theorem getDataMeasure_packs_bits (pulses : Nat → Nat) (s : DHT) (k : Nat) (hk : k < 5) :
    (getDataMeasure pulses s).data k
      = ∑ j in Finset.range 8,
          (if pulses (2 + (2 * (8 * k + j) + 1)) > pulses (2 + 2 * (8 * k + j)) then 1 else 0)
            * 2 ^ (7 - j) := by
  rw [getDataMeasure_data]
  have h40 : 40 = 8 * k + 8 + (32 - 8 * k) := by omega
  rw [h40, classifyLoop_tail, classifyLoop_block]
  rfl

theorem getDataMeasure_packs_bits_witness :
    (getDataMeasure alternatingPulses sample).data 1 = 0x55 := by
  rw [getDataMeasure_packs_bits alternatingPulses sample 1 (by decide)]
  decide

/-! ## Acquisition -/

theorem getSamples_flag (pulses : Nat → Nat) (s : DHT) :
    (getSamples pulses s).timeToReadSensor
      = decide ((getSamples pulses s).data 4
          = ((getSamples pulses s).data 0 + (getSamples pulses s).data 1
              + (getSamples pulses s).data 2 + (getSamples pulses s).data 3) % 256) := by
  unfold getSamples
  rw [isChecksumPassed_flag, isChecksumPassed_data]

/-- C1 (failing input): the acknowledgement low pulse times out, the 80 data
pulses are ties; the frame is all zero, its checksum matches, and
`getSamples` leaves the validity flag `timeToReadSensor` set. -/
theorem getSamples_valid_after_ack_timeout :
    ackTimeoutPulses 0 = TIMEOUT
    ∧ (getDataMeasure ackTimeoutPulses (resetLoop SENSOR_LENGTH sample)).timeToReadSensor = false
    ∧ (getSamples ackTimeoutPulses sample).timeToReadSensor = true := by
  decide

/-! ## Decoding -/

theorem and_127_eq_mod (x : Nat) : x &&& 0x7F = x % 128 :=
  Nat.and_pow_two_sub_one_eq_mod x 7

theorem word_of_bytes (hi lo : Nat) (hhi : hi < 256) (hlo : lo < 256) :
    (hi <<< 8) % 65536 ||| lo = 256 * hi + lo := by
  have h1 : (hi <<< 8) % 65536 = 2 ^ 8 * hi := by rw [Nat.shiftLeft_eq]; omega
  rw [h1, ← Nat.mul_add_lt_is_or (by omega : lo < 2 ^ 8)]

theorem umidity_dht2x (s : DHT) (hv : s.timeToReadSensor = true)
    (ht : s.sensorType = DhtType.DHT21 ∨ s.sensorType = DhtType.DHT22)
    (h0 : s.data 0 < 256) (h1 : s.data 1 < 256) :
    umidityAccordingSensorType s = some (((256 * s.data 0 + s.data 1 : Nat) : ℚ) / 10) := by
  have w0 := word_of_bytes _ _ h0 h1
  rcases ht with ht | ht <;>
    · simp only [umidityAccordingSensorType, hv, ht, if_true, w0]
      congr 1; ring

theorem temperature_dht2x (s : DHT) (hv : s.timeToReadSensor = true)
    (ht : s.sensorType = DhtType.DHT21 ∨ s.sensorType = DhtType.DHT22)
    (h3 : s.data 3 < 256) :
    temperatureAccordingSensorType s
      = some ((if s.data 2 &&& 0x80 ≠ 0 then -1 else 1)
          * (((256 * (s.data 2 &&& 0x7F) + s.data 3 : Nat) : ℚ) / 10)) := by
  have w2 : ((s.data 2 &&& 0x7F) <<< 8) % 65536 ||| s.data 3
      = 256 * (s.data 2 &&& 0x7F) + s.data 3 :=
    word_of_bytes _ _ (by rw [and_127_eq_mod]; omega) h3
  rcases ht with ht | ht <;>
    · simp only [temperatureAccordingSensorType, hv, ht, if_true, w2]
      congr 1
      split <;> ring

/-- C4 (amended): on a frame whose validity flag is set (bytes `b0 .. b4` of type
`uint8_t`) the decoders compute the family table in exact arithmetic.
DHT11: humidity `b0 + b1/10`, temperature `(b2, or -1 - b2 if b3 & 0x80) +
(b3 & 0x0F)/10`.  DHT12: humidity `b0 + b1/10`, temperature
`b2 + (b3 & 0x0F)/10`, times `-1` if `b2 & 0x80`.  DHT21/DHT22: humidity
`(256 b0 + b1)/10`, temperature `(256 (b2 & 0x7F) + b3)/10`, negated if
`b2 & 0x80`.  The DHT11 frame `32 00 1B 00 4D` passes the checksum and decodes
to 50.0 % and 27.0 °C; the DHT22 frame `02 8C 01 0A 99` passes the checksum and
decodes to 65.2 % (`0x028C = 652`) and 26.6 °C. -/
theorem decoders_family_table (s : DHT) (hv : s.timeToReadSensor = true)
    (hb : ∀ i, i < 5 → s.data i < 256) :
    (s.sensorType = DhtType.DHT11 →
      umidityAccordingSensorType s = some ((s.data 0 : ℚ) + (s.data 1 : ℚ) / 10)
      ∧ temperatureAccordingSensorType s
          = some ((if s.data 3 &&& 0x80 ≠ 0 then -1 - (s.data 2 : ℚ) else (s.data 2 : ℚ))
              + ((s.data 3 &&& 0x0F : Nat) : ℚ) / 10))
    ∧ (s.sensorType = DhtType.DHT12 →
      umidityAccordingSensorType s = some ((s.data 0 : ℚ) + (s.data 1 : ℚ) / 10)
      ∧ temperatureAccordingSensorType s
          = some ((if s.data 2 &&& 0x80 ≠ 0 then -1 else 1)
              * ((s.data 2 : ℚ) + ((s.data 3 &&& 0x0F : Nat) : ℚ) / 10)))
    ∧ (s.sensorType = DhtType.DHT21 ∨ s.sensorType = DhtType.DHT22 →
      umidityAccordingSensorType s = some ((256 * (s.data 0 : ℚ) + (s.data 1 : ℚ)) / 10)
      ∧ temperatureAccordingSensorType s
          = some ((if s.data 2 &&& 0x80 ≠ 0 then -1 else 1)
              * ((256 * ((s.data 2 &&& 0x7F : Nat) : ℚ) + (s.data 3 : ℚ)) / 10)))
    ∧ ((isChecksumPassed (withFrame (setSensorType DhtType.DHT11 sample)
          0x32 0x00 0x1B 0x00 0x4D)).timeToReadSensor = true
      ∧ umidityAccordingSensorType (isChecksumPassed (withFrame
          (setSensorType DhtType.DHT11 sample) 0x32 0x00 0x1B 0x00 0x4D)) = some 50
      ∧ temperatureAccordingSensorType (isChecksumPassed (withFrame
          (setSensorType DhtType.DHT11 sample) 0x32 0x00 0x1B 0x00 0x4D)) = some 27)
    ∧ ((isChecksumPassed (withFrame (setSensorType DhtType.DHT22 sample)
          0x02 0x8C 0x01 0x0A 0x99)).timeToReadSensor = true
      ∧ umidityAccordingSensorType (isChecksumPassed (withFrame
          (setSensorType DhtType.DHT22 sample) 0x02 0x8C 0x01 0x0A 0x99)) = some (652 / 10)
      ∧ temperatureAccordingSensorType (isChecksumPassed (withFrame
          (setSensorType DhtType.DHT22 sample) 0x02 0x8C 0x01 0x0A 0x99)) = some (266 / 10)) := by
  refine ⟨?_, ?_, ?_, ?_, ?_⟩
  · intro ht
    refine ⟨?_, ?_⟩
    · simp only [umidityAccordingSensorType, hv, ht, if_true]
      congr 1; ring
    · simp only [temperatureAccordingSensorType, hv, ht, if_true]
      congr 1; ring
  · intro ht
    refine ⟨?_, ?_⟩
    · simp only [umidityAccordingSensorType, hv, ht, if_true]
      congr 1; ring
    · simp only [temperatureAccordingSensorType, hv, ht, if_true]
      congr 1
      split <;> ring
  · intro ht
    refine ⟨?_, ?_⟩
    · rw [umidity_dht2x s hv ht (hb 0 (by norm_num)) (hb 1 (by norm_num))]
      congr 1; push_cast; ring
    · rw [temperature_dht2x s hv ht (hb 3 (by norm_num))]
      congr 1; push_cast; ring
  · have key : ∀ t : DHT, t.timeToReadSensor = true → t.sensorType = DhtType.DHT11 →
        t.data = frame 0x32 0x00 0x1B 0x00 0x4D →
        umidityAccordingSensorType t = some 50 ∧ temperatureAccordingSensorType t = some 27 := by
      intro t h1 h2 h3
      have e1 : (0 &&& 0x80 : Nat) = 0 := by decide
      have e2 : (0 &&& 0x0f : Nat) = 0 := by decide
      simp only [umidityAccordingSensorType, temperatureAccordingSensorType, h1, h2, h3, frame,
        if_true, e1, e2]
      norm_num
    exact ⟨by decide, key _ (by decide) (isChecksumPassed_sensorType _)
      (isChecksumPassed_data _)⟩
  · have key : ∀ t : DHT, t.timeToReadSensor = true → t.sensorType = DhtType.DHT22 →
        t.data = frame 0x02 0x8C 0x01 0x0A 0x99 →
        umidityAccordingSensorType t = some (652 / 10)
          ∧ temperatureAccordingSensorType t = some (266 / 10) := by
      intro t h1 h2 h3
      have e1 : (0x01 &&& 0x80 : Nat) = 0 := by decide
      have e2 : ((0x01 &&& 0x7F) <<< 8 % 65536 ||| 0x0A : Nat) = 266 := by decide
      have e3 : (0x02 <<< 8 % 65536 ||| 0x8C : Nat) = 652 := by decide
      simp only [umidityAccordingSensorType, temperatureAccordingSensorType, h1, h2, h3, frame,
        if_true, e1, e2, e3]
      norm_num
    exact ⟨by decide, key _ (by decide) (isChecksumPassed_sensorType _)
      (isChecksumPassed_data _)⟩

theorem decoders_family_table_witness :
    umidityAccordingSensorType (isChecksumPassed (withFrame
        (setSensorType DhtType.DHT21 sample) 0x01 0xF4 0x80 0x65 0xDA)) = some 50
    ∧ temperatureAccordingSensorType (isChecksumPassed (withFrame
        (setSensorType DhtType.DHT21 sample) 0x01 0xF4 0x80 0x65 0xDA)) = some (-101 / 10) := by
  have hv : (isChecksumPassed (withFrame (setSensorType DhtType.DHT21 sample)
      0x01 0xF4 0x80 0x65 0xDA)).timeToReadSensor = true := by decide
  have hb : ∀ i, i < 5 → (isChecksumPassed (withFrame (setSensorType DhtType.DHT21 sample)
      0x01 0xF4 0x80 0x65 0xDA)).data i < 256 := by decide
  have h := (decoders_family_table _ hv hb).2.2.1 (Or.inl (isChecksumPassed_sensorType _))
  have e1 : (0x80 &&& 0x80 : Nat) ≠ 0 := by decide
  have e2 : (0x80 &&& 0x7F : Nat) = 0 := by decide
  simp only [isChecksumPassed_data, withFrame, frame, e1, e2, if_true, ne_eq,
    not_false_eq_true] at h
  refine ⟨h.1.trans ?_, h.2.trans ?_⟩ <;> norm_num

/-- C4 (counterexample): for the DHT22 frame `02 8C 01 0A 99` the humidity
decoder returns 65.2, not 65.6. -/
theorem umidity_scenario_not_65_6 :
    (isChecksumPassed (withFrame (setSensorType DhtType.DHT22 sample)
        0x02 0x8C 0x01 0x0A 0x99)).timeToReadSensor = true
    ∧ umidityAccordingSensorType (isChecksumPassed (withFrame
        (setSensorType DhtType.DHT22 sample) 0x02 0x8C 0x01 0x0A 0x99)) ≠ some (656 / 10) := by
  refine ⟨by decide, ?_⟩
  have hf : (isChecksumPassed (withFrame (setSensorType DhtType.DHT22 sample)
      0x02 0x8C 0x01 0x0A 0x99)).timeToReadSensor = true := by decide
  have e3 : (0x02 <<< 8 % 65536 ||| 0x8C : Nat) = 652 := by decide
  simp only [umidityAccordingSensorType, hf, if_true, isChecksumPassed_sensorType,
    isChecksumPassed_data, withFrame, setSensorType, frame, e3]
  norm_num

/-- C5: whatever the sensor family, a frame whose fifth byte differs from
`(data[0] + data[1] + data[2] + data[3]) mod 256` is marked invalid by
`isChecksumPassed`, and both decoders then return `NAN` (`none`). -/
theorem decoders_nan_on_checksum_failure (s : DHT)
    (h : s.data 4 ≠ (s.data 0 + s.data 1 + s.data 2 + s.data 3) % 256) :
    temperatureAccordingSensorType (isChecksumPassed s) = none
    ∧ umidityAccordingSensorType (isChecksumPassed s) = none := by
  have hf : (isChecksumPassed s).timeToReadSensor = false := by
    rw [isChecksumPassed_flag]; simpa using h
  simp [temperatureAccordingSensorType, umidityAccordingSensorType, hf]

theorem decoders_nan_on_checksum_failure_witness :
    temperatureAccordingSensorType (isChecksumPassed (withFrame
        (setSensorType DhtType.DHT11 sample) 0x32 0x00 0x1B 0x00 0x4E)) = none
    ∧ umidityAccordingSensorType (isChecksumPassed (withFrame
        (setSensorType DhtType.DHT11 sample) 0x32 0x00 0x1B 0x00 0x4E)) = none :=
  decoders_nan_on_checksum_failure
    (withFrame (setSensorType DhtType.DHT11 sample) 0x32 0x00 0x1B 0x00 0x4E) (by decide)

/-! ## Round trip for the DHT21/DHT22 encoding -/

set_option maxRecDepth 100000 in
theorem sign_byte_bits : ∀ x, x < 128 →
    (x &&& 0x80 = 0 ∧ x &&& 0x7F = x) ∧ ((x + 0x80) &&& 0x80 ≠ 0 ∧ (x + 0x80) &&& 0x7F = x) := by
  decide

/-- In exact rational arithmetic (the decoders `temperatureAccordingSensorType`
and `umidityAccordingSensorType` above), for `0 ≤ h ≤ 65535` and
`-32767 ≤ t ≤ 32767` the DHT21/DHT22 frame built by the standard encoding
(`encodeDHT22`) is accepted by `isChecksumPassed` and decodes to `h / 10` and
`t / 10`. -/
theorem decode_encodeDHT22 (s : DHT) (h : Nat) (t : Int)
    (hty : s.sensorType = DhtType.DHT21 ∨ s.sensorType = DhtType.DHT22)
    (hh : h ≤ 65535) (hlo : -32767 ≤ t) (hhi : t ≤ 32767) :
    (isChecksumPassed (withData s (encodeDHT22 h t))).timeToReadSensor = true
    ∧ umidityAccordingSensorType (isChecksumPassed (withData s (encodeDHT22 h t)))
        = some ((h : ℚ) / 10)
    ∧ temperatureAccordingSensorType (isChecksumPassed (withData s (encodeDHT22 h t)))
        = some ((t : ℚ) / 10) := by
  have hv : (isChecksumPassed (withData s (encodeDHT22 h t))).timeToReadSensor = true := by
    rw [isChecksumPassed_flag]; simp [withData, encodeDHT22, frame]
  have hty2 : (isChecksumPassed (withData s (encodeDHT22 h t))).sensorType = DhtType.DHT21
      ∨ (isChecksumPassed (withData s (encodeDHT22 h t))).sensorType = DhtType.DHT22 := by
    rw [isChecksumPassed_sensorType]; exact hty
  have hx : t.natAbs / 256 < 128 := by omega
  have hbits := sign_byte_bits (t.natAbs / 256) hx
  refine ⟨hv, ?_, ?_⟩
  · rw [umidity_dht2x _ hv hty2 (by rw [isChecksumPassed_data]; simp [withData, encodeDHT22, frame]; omega)
      (by rw [isChecksumPassed_data]; simp [withData, encodeDHT22, frame]; omega)]
    simp only [isChecksumPassed_data, withData, encodeDHT22, frame]
    congr 2
    exact_mod_cast (by omega : 256 * (h / 256) + h % 256 = h)
  · rw [temperature_dht2x _ hv hty2 (by rw [isChecksumPassed_data]; simp [withData, encodeDHT22, frame]; omega)]
    simp only [isChecksumPassed_data, withData, encodeDHT22, frame]
    congr 1
    by_cases hneg : t < 0
    · simp only [hneg, if_true, hbits.2.1, hbits.2.2, ne_eq, not_false_eq_true]
      have e : 256 * (t.natAbs / 256) + t.natAbs % 256 = t.natAbs := by omega
      rw [e]
      have e2 : (t.natAbs : Int) = -t := by omega
      have e3 : ((t.natAbs : ℕ) : ℚ) = -(t : ℚ) := by
        rw [← Int.cast_natCast, e2, Int.cast_neg]
      rw [e3]; ring
    · simp only [hneg, if_false, Nat.add_zero, hbits.1.1, hbits.1.2, ne_eq, not_true_eq_false]
      have e : 256 * (t.natAbs / 256) + t.natAbs % 256 = t.natAbs := by omega
      rw [e]
      have e2 : (t.natAbs : Int) = t := by omega
      have e3 : ((t.natAbs : ℕ) : ℚ) = (t : ℚ) := by
        rw [← Int.cast_natCast, e2]
      rw [e3]; ring

theorem decode_encodeDHT22_witness :
    (isChecksumPassed (withData (setSensorType DhtType.DHT22 sample)
        (encodeDHT22 652 (-101)))).timeToReadSensor = true
    ∧ umidityAccordingSensorType (isChecksumPassed (withData
        (setSensorType DhtType.DHT22 sample) (encodeDHT22 652 (-101)))) = some (652 / 10)
    ∧ temperatureAccordingSensorType (isChecksumPassed (withData
        (setSensorType DhtType.DHT22 sample) (encodeDHT22 652 (-101)))) = some (-101 / 10) := by
  have h := decode_encodeDHT22 (setSensorType DhtType.DHT22 sample) 652 (-101) (Or.inr rfl)
    (by decide) (by decide) (by decide)
  refine ⟨h.1, h.2.1.trans ?_, h.2.2.trans ?_⟩ <;> norm_num

/-! ## Sampling policy -/

theorem sub32_eq_emod (a b : Nat) :
    ((sub32 a b : Nat) : Int) = ((a : Int) - (b : Int)) % 4294967296 := by
  unfold sub32
  omega

theorem isSensorAvailable_fst (now : Nat) (s : DHT) :
    (isSensorAvailable now s).1
      = (s.forcedMode || decide (TIME_BETWEEN_SAMPLES ≤ sub32 (now % 4294967296) s.lastReadingTime)) := by
  unfold isSensorAvailable
  dsimp only
  by_cases h : TIME_BETWEEN_SAMPLES ≤ sub32 (now % 4294967296) s.lastReadingTime
  · cases s.forcedMode <;> simp [h, Nat.not_lt.mpr h]
  · cases s.forcedMode <;> simp [h, Nat.lt_of_not_le h]

theorem isSensorAvailable_snd (now : Nat) (s : DHT) :
    (isSensorAvailable now s).2 = { s with lastReadingTime := now % 4294967296 } := rfl

/-- C7: for a `uint32_t` clock value `now`, `isSensorAvailable` returns `true`
exactly when `forcedMode` is set or `(now - lastReadingTime) mod 2^32 ≥ 2000`,
and whatever it returns the state afterwards is the state before with
`lastReadingTime` replaced by `now`. -/
theorem isSensorAvailable_spec (s : DHT) (now : Nat) (hnow : now < 4294967296) :
    ((isSensorAvailable now s).1 = true
        ↔ s.forcedMode = true
          ∨ ((now : Int) - (s.lastReadingTime : Int)) % 4294967296 ≥ 2000)
    ∧ (isSensorAvailable now s).2 = { s with lastReadingTime := now } := by
  refine ⟨?_, ?_⟩
  · rw [isSensorAvailable_fst, Nat.mod_eq_of_lt hnow]
    have h := sub32_eq_emod now s.lastReadingTime
    simp only [Bool.or_eq_true, decide_eq_true_eq, TIME_BETWEEN_SAMPLES]
    constructor
    · rintro (hf | hd)
      · exact Or.inl hf
      · right; omega
    · rintro (hf | hd)
      · exact Or.inl hf
      · right; omega
  · rw [isSensorAvailable_snd, Nat.mod_eq_of_lt hnow]

theorem isSensorAvailable_spec_witness :
    ((isSensorAvailable 5100 afterFirstRead).1 = true
        ↔ afterFirstRead.forcedMode = true
          ∨ ((5100 : Int) - (afterFirstRead.lastReadingTime : Int)) % 4294967296 ≥ 2000)
    ∧ (isSensorAvailable 5100 afterFirstRead).2 = { afterFirstRead with lastReadingTime := 5100 } :=
  isSensorAvailable_spec afterFirstRead 5100 (by decide)

/-- C8 (counterexample): `begin` at clock value 0 stores
`lastReadingTime = 2^32 - 2000`; with `forcedMode` off, a first gate call at
`t1 = 2^32 - 2000` (no clock wrap since `begin`) is refused. -/
theorem first_gate_call_refused_near_wrap :
    (0 : Nat) ≤ 4294965296 ∧ (4294965296 : Nat) ≤ 4294965296
    ∧ (4294965296 : Nat) < 4294965296 + 2000 ∧ (4294965296 : Nat) < 4294967296
    ∧ (begin 0 sample).forcedMode = false
    ∧ twoGateCalls 4294965296 4294965296 (begin 0 sample) = (false, false) := by
  decide

/-- C8 (amended): after `begin` at clock value `t0`, for gate calls at
`t0 ≤ t1 ≤ t2 < t1 + 2000` without clock wrap: with `forcedMode` off and
`t1 - t0 < 2^32 - 2000` the two results are `(true, false)`; with `forcedMode`
on they are `(true, true)`. -/
theorem twoGateCalls_after_begin (s : DHT) (t0 t1 t2 : Nat) (h01 : t0 ≤ t1) (h12 : t1 ≤ t2)
    (h2 : t2 < t1 + 2000) (hw : t2 < 4294967296) :
    (s.forcedMode = false → t1 - t0 < 4294967296 - 2000 →
        twoGateCalls t1 t2 (begin t0 s) = (true, false))
    ∧ (s.forcedMode = true → twoGateCalls t1 t2 (begin t0 s) = (true, true)) := by
  refine ⟨?_, ?_⟩
  · intro hf hgap
    unfold twoGateCalls
    simp only [isSensorAvailable_fst, isSensorAvailable_snd, begin, hf, Bool.false_or,
      TIME_BETWEEN_SAMPLES, sub32, Prod.mk.injEq, decide_eq_true_eq, decide_eq_false_iff_not]
    omega
  · intro hf
    unfold twoGateCalls
    simp [isSensorAvailable_fst, isSensorAvailable_snd, begin, hf]

theorem twoGateCalls_after_begin_witness :
    twoGateCalls 5000 5100 (begin 0 sample) = (true, false)
    ∧ twoGateCalls 5000 5100 (begin 0 (turnOnForcedMode sample)) = (true, true) :=
  ⟨(twoGateCalls_after_begin sample 0 5000 5100 (by decide) (by decide) (by decide)
      (by decide)).1 (by decide) (by decide),
   (twoGateCalls_after_begin (turnOnForcedMode sample) 0 5000 5100 (by decide) (by decide)
      (by decide) (by decide)).2 (by decide)⟩

/-! ## Reads refused by the gate -/

theorem tryGetSamples_refused (s : DHT) (now : Nat) (pulses : Nat → Nat)
    (h : (isSensorAvailable now s).1 = false) :
    tryGetSamples now pulses s = { s with lastReadingTime := now % 4294967296 } := by
  unfold tryGetSamples
  simp [h, isSensorAvailable_snd]

theorem temperature_none_iff (s : DHT) :
    temperatureAccordingSensorType s = none ↔ s.timeToReadSensor = false := by
  unfold temperatureAccordingSensorType
  cases hv : s.timeToReadSensor
  · simp
  · cases s.sensorType <;> simp

theorem umidity_none_iff (s : DHT) :
    umidityAccordingSensorType s = none ↔ s.timeToReadSensor = false := by
  unfold umidityAccordingSensorType
  cases hv : s.timeToReadSensor
  · simp
  · cases s.sensorType <;> simp

theorem afterFirstRead_fields :
    afterFirstRead.timeToReadSensor = true ∧ afterFirstRead.sensorType = DhtType.DHT11
    ∧ afterFirstRead.forcedMode = false ∧ afterFirstRead.lastReadingTime = 5000
    ∧ afterFirstRead.data 0 = 0x32 ∧ afterFirstRead.data 1 = 0x00 ∧ afterFirstRead.data 2 = 0x1B
    ∧ afterFirstRead.data 3 = 0x00 ∧ afterFirstRead.data 4 = 0x4D := by
  decide

/-- C6 (counterexample): an object that has just acquired the valid DHT11 frame
`32 00 1B 00 4D` at clock value 5000 is read again at clock value 5100; the
gate refuses, and the two reads return 27.0 and 50.0, not `NAN`. -/
theorem refused_read_returns_number :
    (isSensorAvailable 5100 afterFirstRead).1 = false
    ∧ (getTemperatureCelsius 5100 alternatingPulses afterFirstRead).1 = some 27
    ∧ (getHumidity 5100 alternatingPulses afterFirstRead).1 = some 50 := by
  have hg : (isSensorAvailable 5100 afterFirstRead).1 = false := by decide
  obtain ⟨h1, h2, -, -, d0, d1, d2, d3, -⟩ := afterFirstRead_fields
  have e1 : (0 &&& 0x80 : Nat) = 0 := by decide
  have e2 : (0 &&& 0x0f : Nat) = 0 := by decide
  refine ⟨hg, ?_, ?_⟩
  · simp only [getTemperatureCelsius, tryGetSamples_refused _ _ _ hg,
      temperatureAccordingSensorType, h1, h2, d2, d3, if_true, e1, e2]
    norm_num
  · simp only [getHumidity, tryGetSamples_refused _ _ _ hg,
      umidityAccordingSensorType, h1, h2, d0, d1, if_true]
    norm_num

/-- C6 (amended): a read refused by the gate returns what the decoders give on
the stored, unchanged frame: `getTemperatureCelsius` and `getHumidity` called
while `isSensorAvailable` returns `false` return
`temperatureAccordingSensorType` / `umidityAccordingSensorType` of the state
before the call, which is `NAN` exactly when the stored flag
`timeToReadSensor` is `false`. -/
theorem refused_read_decodes_stored_frame (s : DHT) (now : Nat) (pulses : Nat → Nat)
    (h : (isSensorAvailable now s).1 = false) :
    (getTemperatureCelsius now pulses s).1 = temperatureAccordingSensorType s
    ∧ (getHumidity now pulses s).1 = umidityAccordingSensorType s
    ∧ ((getTemperatureCelsius now pulses s).1 = none ↔ s.timeToReadSensor = false)
    ∧ ((getHumidity now pulses s).1 = none ↔ s.timeToReadSensor = false) := by
  have ht : (getTemperatureCelsius now pulses s).1 = temperatureAccordingSensorType s := by
    simp only [getTemperatureCelsius, tryGetSamples_refused _ _ _ h]
    rfl
  have hu : (getHumidity now pulses s).1 = umidityAccordingSensorType s := by
    simp only [getHumidity, tryGetSamples_refused _ _ _ h]
    rfl
  exact ⟨ht, hu, by rw [ht]; exact temperature_none_iff s, by rw [hu]; exact umidity_none_iff s⟩

theorem refused_read_decodes_stored_frame_witness :
    (getTemperatureCelsius 5100 alternatingPulses afterFirstRead).1
        = temperatureAccordingSensorType afterFirstRead
    ∧ (getHumidity 5100 alternatingPulses afterFirstRead).1
        = umidityAccordingSensorType afterFirstRead
    ∧ ((getTemperatureCelsius 5100 alternatingPulses afterFirstRead).1 = none
        ↔ afterFirstRead.timeToReadSensor = false)
    ∧ ((getHumidity 5100 alternatingPulses afterFirstRead).1 = none
        ↔ afterFirstRead.timeToReadSensor = false) :=
  refused_read_decodes_stored_frame afterFirstRead 5100 alternatingPulses (by decide)

/-! ## The pulse timer -/

theorem expectPulseGenericLoop_stuck (modulus numberOfCycles : Nat) (level : Bool) (fuel : Nat) :
    ∀ count pos, expectPulseGenericLoop modulus numberOfCycles level (fun _ => level)
      fuel count pos = none := by
  induction fuel with
  | zero => intro count pos; rfl
  | succ fuel ih =>
    intro count pos
    simp only [expectPulseGenericLoop, if_true]
    exact ih _ _

theorem expectPulseAvrLoop_returns (modulus numberOfCycles : Nat) (level : Bool)
    (pin : Nat → Bool) (hN : numberOfCycles < modulus) (fuel : Nat) :
    ∀ count pos, fuel + count = numberOfCycles →
      ∃ v n, expectPulseAvrLoop modulus numberOfCycles level pin (fuel + 1) count pos
          = some (v, n) ∧ n ≤ pos + fuel + 1 := by
  induction fuel with
  | zero =>
    intro count pos h
    by_cases hp : pin pos = level
    · exact ⟨TIMEOUT, pos + 1, by simp [expectPulseAvrLoop, hp, (by omega : count ≥ numberOfCycles)],
        by omega⟩
    · exact ⟨count, pos + 1, by simp [expectPulseAvrLoop, hp], by omega⟩
  | succ fuel ih =>
    intro count pos h
    by_cases hp : pin pos = level
    · have hc : ¬ count ≥ numberOfCycles := by omega
      have hm : (count + 1) % modulus = count + 1 := Nat.mod_eq_of_lt (by omega)
      obtain ⟨v, n, hv, hn⟩ := ih (count + 1) (pos + 1) (by omega)
      refine ⟨v, n, ?_, by omega⟩
      rw [expectPulseAvrLoop]
      simp only [hp, if_true, hc, if_false, hm]
      exact hv
    · exact ⟨count, pos + 1, by rw [expectPulseAvrLoop]; simp [hp], by omega⟩

theorem expectPulse_avr_returns (wideCount : Bool) (s : DHT) (level : Bool) (pin : Nat → Bool)
    (hN : s.numberOfCycles < countModulus wideCount) :
    ∃ v n, expectPulse true wideCount (s.numberOfCycles + 1) s level pin = some (v, n)
      ∧ n ≤ s.numberOfCycles + 1 := by
  obtain ⟨v, n, hv, hn⟩ := expectPulseAvrLoop_returns (countModulus wideCount)
    s.numberOfCycles level pin hN s.numberOfCycles 0 0 (by omega)
  exact ⟨v, n, by simpa [expectPulse] using hv, by omega⟩

/-- C10 (failing input): on the generic `digitalRead` path, for a pin that
stays at `level` the loop of `expectPulse` is still running after any number
`fuel` of loop tests, whatever `numberOfCycles` and the counter width: the call
never returns. -/
theorem expectPulse_generic_stuck_pin_never_returns (wideCount : Bool) (s : DHT)
    (level : Bool) (fuel : Nat) :
    expectPulse false wideCount fuel s level (fun _ => level) = none := by
  simp only [expectPulse, Bool.false_eq_true, if_false]
  exact expectPulseGenericLoop_stuck _ _ _ _ _ _

theorem expectPulseAvrLoop_counts (modulus numberOfCycles : Nat) (level : Bool)
    (pin : Nat → Bool) (n : Nat) :
    ∀ fuel count pos, (∀ i, i < n → pin (pos + i) = level) → pin (pos + n) ≠ level →
      count + n ≤ numberOfCycles → count + n < modulus → n < fuel →
      expectPulseAvrLoop modulus numberOfCycles level pin fuel count pos
        = some (count + n, pos + n + 1) := by
  induction n with
  | zero =>
    intro fuel count pos _ hchange _ _ hfuel
    obtain ⟨f, rfl⟩ : ∃ f, fuel = f + 1 := ⟨fuel - 1, by omega⟩
    rw [expectPulseAvrLoop]
    simp only [Nat.add_zero] at hchange
    simp [hchange]
  | succ n ih =>
    intro fuel count pos hstay hchange hbudget hfit hfuel
    obtain ⟨f, rfl⟩ : ∃ f, fuel = f + 1 := ⟨fuel - 1, by omega⟩
    have h0 : pin pos = level := by simpa using hstay 0 (by omega)
    have hc : ¬ count ≥ numberOfCycles := by omega
    have hm : (count + 1) % modulus = count + 1 := Nat.mod_eq_of_lt (by omega)
    rw [expectPulseAvrLoop]
    simp only [h0, if_true, hc, if_false, hm]
    have hrec := ih f (count + 1) (pos + 1)
      (fun i hi => by have := hstay (i + 1) (by omega); rwa [Nat.add_assoc, Nat.add_comm 1 i])
      (by rwa [Nat.add_assoc, Nat.add_comm 1 n]) (by omega) (by omega) (by omega)
    rw [hrec]
    congr 2 <;> omega

theorem expectPulseGenericLoop_counts (modulus numberOfCycles : Nat) (level : Bool)
    (pin : Nat → Bool) (n : Nat) :
    ∀ fuel count pos, (∀ i, i < n → pin (pos + i) = level) → pin (pos + n) ≠ level →
      count + n ≤ numberOfCycles → count + n < modulus → n < fuel →
      expectPulseGenericLoop modulus numberOfCycles level pin fuel count pos
        = some (count + n, pos + n + 1) := by
  induction n with
  | zero =>
    intro fuel count pos _ hchange _ _ hfuel
    obtain ⟨f, rfl⟩ : ∃ f, fuel = f + 1 := ⟨fuel - 1, by omega⟩
    rw [expectPulseGenericLoop]
    simp only [Nat.add_zero] at hchange
    simp [hchange]
  | succ n ih =>
    intro fuel count pos hstay hchange hbudget hfit hfuel
    obtain ⟨f, rfl⟩ : ∃ f, fuel = f + 1 := ⟨fuel - 1, by omega⟩
    have h0 : pin pos = level := by simpa using hstay 0 (by omega)
    have hc : ¬ count ≥ numberOfCycles := by omega
    have hm : (count + 1) % modulus = count + 1 := Nat.mod_eq_of_lt (by omega)
    rw [expectPulseGenericLoop]
    simp only [h0, if_true, hc, if_false, hm]
    have hrec := ih f (count + 1) (pos + 1)
      (fun i hi => by have := hstay (i + 1) (by omega); rwa [Nat.add_assoc, Nat.add_comm 1 i])
      (by rwa [Nat.add_assoc, Nat.add_comm 1 n]) (by omega) (by omega) (by omega)
    rw [hrec]
    congr 2 <;> omega

theorem expectPulseGenericLoop_zero_budget (level : Bool) (pin : Nat → Bool) (n : Nat) :
    ∀ fuel count pos, (∀ i, i < n → pin (pos + i) = level) → pin (pos + n) ≠ level →
      n < fuel →
      expectPulseGenericLoop 4294967296 0 level pin fuel count pos
        = some (if n = 0 then count else TIMEOUT, pos + n + 1) := by
  induction n with
  | zero =>
    intro fuel count pos _ hchange hfuel
    obtain ⟨f, rfl⟩ : ∃ f, fuel = f + 1 := ⟨fuel - 1, by omega⟩
    rw [expectPulseGenericLoop]
    simp only [Nat.add_zero] at hchange
    simp [hchange]
  | succ n ih =>
    intro fuel count pos hstay hchange hfuel
    obtain ⟨f, rfl⟩ : ∃ f, fuel = f + 1 := ⟨fuel - 1, by omega⟩
    have h0 : pin pos = level := by simpa using hstay 0 (by omega)
    rw [expectPulseGenericLoop]
    simp only [h0, if_true, ge_iff_le, Nat.zero_le]
    have hrec := ih f (TIMEOUT % 4294967296) (pos + 1)
      (fun i hi => by have := hstay (i + 1) (by omega); rwa [Nat.add_assoc, Nat.add_comm 1 i])
      (by rwa [Nat.add_assoc, Nat.add_comm 1 n]) (by omega)
    rw [hrec]
    have ht : TIMEOUT % 4294967296 = TIMEOUT := by decide
    simp only [ht, ite_self, Nat.succ_ne_zero, if_false]
    congr 2
    omega

/-- C11 (counterexample): with `numberOfCycles = 0` and a pin that already
reads low, `expectPulse(HIGH)` returns the count 0 after one sample on both
paths, not the sentinel `TIMEOUT`. -/
theorem expectPulse_zero_budget_returns_zero :
    zeroBudget.numberOfCycles = 0
    ∧ alwaysLow 0 ≠ true
    ∧ expectPulse false true 1 zeroBudget true alwaysLow = some (0, 1)
    ∧ expectPulse true true 1 zeroBudget true alwaysLow = some (0, 1)
    ∧ (0 : Nat) ≠ TIMEOUT := by
  decide

/-- C11 (amended): with `numberOfCycles = 0`, for both values of `level`:
when the first pin sample differs from `level`, `expectPulse(level)` returns 0
after that one sample on both paths; when the first pin sample equals `level`
it returns the sentinel `TIMEOUT`, on the AVR path right after that sample
and on the generic path with a 32-bit counter at the first sample away from
`level`. -/
theorem expectPulse_zero_budget (avr wideCount : Bool) (s : DHT) (level : Bool)
    (pin : Nat → Bool) (h0 : s.numberOfCycles = 0) :
    (pin 0 ≠ level → ∀ fuel, expectPulse avr wideCount (fuel + 1) s level pin = some (0, 1))
    ∧ (pin 0 = level →
        ∀ fuel, expectPulse true wideCount (fuel + 1) s level pin = some (TIMEOUT, 1))
    ∧ (pin 0 = level → ∀ n fuel, (∀ i, i ≤ n → pin i = level) → pin (n + 1) ≠ level →
        n + 1 < fuel → expectPulse false true fuel s level pin = some (TIMEOUT, n + 2)) := by
  refine ⟨?_, ?_, ?_⟩
  · intro hp fuel
    cases avr <;> simp [expectPulse, expectPulseAvrLoop, expectPulseGenericLoop, hp]
  · intro hp fuel
    simp [expectPulse, expectPulseAvrLoop, hp, h0]
  · intro _ n fuel hstay hchange hfuel
    have h := expectPulseGenericLoop_zero_budget level pin (n + 1) fuel 0 0
      (fun i hi => by rw [Nat.zero_add]; exact hstay i (by omega))
      (by rwa [Nat.zero_add]) hfuel
    simp only [expectPulse, Bool.false_eq_true, if_false, countModulus, if_true, h0]
    rw [h]
    simp

theorem expectPulse_zero_budget_witness :
    expectPulse false true 1 zeroBudget true alwaysLow = some (0, 1) :=
  (expectPulse_zero_budget false true zeroBudget true alwaysLow (by decide)).1 (by decide) 0

/-- C14 (counterexample): on a pin that is high for three samples and then
low, `expectPulse(HIGH)` returns 3 although no sample at the opposite level
precedes the first high sample; on a pin that is low for two samples and then
high, `expectPulse(HIGH)` returns 0 although two samples at the opposite level
precede the first high sample. -/
theorem expectPulse_not_samples_before_level :
    expectPulse false true 10 sample true highThenLow = some (3, 4)
    ∧ samplesBeforeLevel true highThenLow 10 0 = 0
    ∧ expectPulse false true 10 sample true lowThenHigh = some (0, 1)
    ∧ samplesBeforeLevel true lowThenHigh 10 0 = 2 := by
  decide

/-- C14 (amended): for a pin that stays at `level` for its first `n` samples
and leaves it at sample `n`, within the timeout budget (`n ≤ numberOfCycles`,
and `n` fits the counter), `expectPulse(level)` returns `n`, the number of
samples during which the pin was at `level`: it counts while the pin stays at
`level` and returns the count at the moment the opposite level is first
observed, after `n + 1` samples, on both paths. -/
theorem expectPulse_counts_samples_at_level (avr wideCount : Bool) (s : DHT) (level : Bool)
    (pin : Nat → Bool) (n fuel : Nat) (hstay : ∀ i, i < n → pin i = level)
    (hchange : pin n ≠ level) (hbudget : n ≤ s.numberOfCycles)
    (hfit : n < countModulus wideCount) (hfuel : n < fuel) :
    expectPulse avr wideCount fuel s level pin = some (n, n + 1) := by
  cases avr
  · have h := expectPulseGenericLoop_counts (countModulus wideCount) s.numberOfCycles level pin n
      fuel 0 0 (fun i hi => by rw [Nat.zero_add]; exact hstay i hi) (by rwa [Nat.zero_add])
      (by omega) (by omega) hfuel
    simp only [expectPulse, Bool.false_eq_true, if_false]
    rw [h]
    simp
  · have h := expectPulseAvrLoop_counts (countModulus wideCount) s.numberOfCycles level pin n
      fuel 0 0 (fun i hi => by rw [Nat.zero_add]; exact hstay i hi) (by rwa [Nat.zero_add])
      (by omega) (by omega) hfuel
    simp only [expectPulse, if_true]
    rw [h]
    simp

theorem expectPulse_counts_samples_at_level_witness :
    expectPulse false true 10 sample true highThenLow = some (3, 4) :=
  expectPulse_counts_samples_at_level false true sample true highThenLow 3 10
    (by decide) (by decide) (by decide) (by decide) (by decide)

/-! ## Timeouts during an acquisition -/

theorem verifyTimeout_sensorType (x : Nat) (s : DHT) :
    (verifyTimeout x s).sensorType = s.sensorType := by
  unfold verifyTimeout
  split <;> rfl

theorem verifyTimeout_flag_false (x : Nat) (s : DHT) (h : s.timeToReadSensor = false) :
    (verifyTimeout x s).timeToReadSensor = false := by
  unfold verifyTimeout
  split
  · rfl
  · exact h

theorem verifyTimeout_flag_timeout (s : DHT) :
    (verifyTimeout TIMEOUT s).timeToReadSensor = false := by
  simp [verifyTimeout]

theorem classifyStep_sensorType (cycles : Nat → Nat) (i : Nat) (s : DHT) :
    (classifyStep cycles i s).sensorType = s.sensorType := by
  unfold classifyStep
  dsimp only
  split <;> simp [verifyTimeout_sensorType]

theorem classifyStep_flag_false (cycles : Nat → Nat) (i : Nat) (s : DHT)
    (h : s.timeToReadSensor = false) : (classifyStep cycles i s).timeToReadSensor = false := by
  have h2 := verifyTimeout_flag_false (cycles (2 * i + 1)) _
    (verifyTimeout_flag_false (cycles (2 * i)) s h)
  unfold classifyStep
  dsimp only
  split <;> exact h2

theorem classifyLoop_sensorType (cycles : Nat → Nat) (n : Nat) (s : DHT) :
    (classifyLoop cycles n s).sensorType = s.sensorType := by
  induction n with
  | zero => rfl
  | succ n ih => rw [classifyLoop, classifyStep_sensorType, ih]

theorem classifyLoop_flag_false (cycles : Nat → Nat) (n : Nat) (s : DHT)
    (h : s.timeToReadSensor = false) : (classifyLoop cycles n s).timeToReadSensor = false := by
  induction n with
  | zero => exact h
  | succ n ih => exact classifyStep_flag_false cycles n _ ih

theorem resetLoop_sensorType (n : Nat) (s : DHT) :
    (resetLoop n s).sensorType = s.sensorType := by
  induction n with
  | zero => rfl
  | succ n ih => rw [resetLoop]; exact ih

theorem getSamples_sensorType (pulses : Nat → Nat) (s : DHT) :
    (getSamples pulses s).sensorType = s.sensorType := by
  unfold getSamples getDataMeasure
  rw [isChecksumPassed_sensorType, classifyLoop_sensorType, verifyTimeout_sensorType,
    verifyTimeout_sensorType, resetLoop_sensorType]

theorem getDataMeasure_data_sum (pulses : Nat → Nat) (s : DHT) (k : Nat) (hk : k < 5) :
    (getDataMeasure pulses s).data k
      = ∑ j in Finset.range 8,
          pulseBit (pulses (2 + 2 * (8 * k + j))) (pulses (2 + (2 * (8 * k + j) + 1)))
            * 2 ^ (7 - j) := by
  rw [getDataMeasure_data]
  have h40 : 40 = 8 * k + 8 + (32 - 8 * k) := by omega
  rw [h40, classifyLoop_tail, classifyLoop_block]

/-- C13 (counterexample): the acknowledgement low pulse times out and the 80
data pulses alternate; `getDataMeasure`, run on the zeroed buffer, still
captures them: byte 0 is `0x55`, not zero. -/
theorem getDataMeasure_captures_after_ack_timeout :
    ackTimeoutAlternating 0 = TIMEOUT
    ∧ (resetLoop SENSOR_LENGTH sample).data 0 = 0
    ∧ (getDataMeasure ackTimeoutAlternating (resetLoop SENSOR_LENGTH sample)).data 0 = 0x55 := by
  decide

/-- C13 (amended): when the first or the second pulse measurement (the
acknowledgement low / high pulse) is the timeout sentinel, `getDataMeasure`
does not abort the capture: it leaves the reading marked not valid
(`timeToReadSensor = false` after `getDataMeasure`) and packs the following 80
measurements into the five data bytes, most significant bit first, bit `i`
being `1` exactly when the high pulse of pair `i` is longer than its low
pulse. -/
theorem getDataMeasure_ack_timeout (pulses : Nat → Nat) (s : DHT)
    (h : pulses 0 = TIMEOUT ∨ pulses 1 = TIMEOUT) :
    (getDataMeasure pulses (resetLoop SENSOR_LENGTH s)).timeToReadSensor = false
    ∧ ∀ k, k < 5 → (getDataMeasure pulses (resetLoop SENSOR_LENGTH s)).data k
        = ∑ j in Finset.range 8,
            (if pulses (2 + (2 * (8 * k + j) + 1)) > pulses (2 + 2 * (8 * k + j)) then 1 else 0)
              * 2 ^ (7 - j) := by
  refine ⟨?_, ?_⟩
  · unfold getDataMeasure
    apply classifyLoop_flag_false
    rcases h with h | h
    · rw [h]
      exact verifyTimeout_flag_false _ _ (verifyTimeout_flag_timeout _)
    · rw [h]
      exact verifyTimeout_flag_timeout _
  · intro k hk
    rw [getDataMeasure_data_sum _ _ k hk]
    rfl

theorem getDataMeasure_ack_timeout_witness :
    (getDataMeasure ackTimeoutAlternating (resetLoop SENSOR_LENGTH sample)).timeToReadSensor
      = false :=
  (getDataMeasure_ack_timeout ackTimeoutAlternating sample (Or.inl (by decide))).1

theorem decoders_zero_frame (r : DHT) (hv : r.timeToReadSensor = true)
    (d0 : r.data 0 = 0) (d1 : r.data 1 = 0) (d2 : r.data 2 = 0) (d3 : r.data 3 = 0) :
    temperatureAccordingSensorType r = some 0 ∧ umidityAccordingSensorType r = some 0 := by
  have e1 : (0 &&& 0x80 : Nat) = 0 := by decide
  have e2 : (0 &&& 0x0f : Nat) = 0 := by decide
  have e3 : ((0 &&& 0x7F) <<< 8 % 65536 ||| 0 : Nat) = 0 := by decide
  have e4 : (0 <<< 8 % 65536 ||| 0 : Nat) = 0 := by decide
  unfold temperatureAccordingSensorType umidityAccordingSensorType
  cases hty : r.sensorType <;> simp [hv, d0, d1, d2, d3, e1, e2, e3, e4]

/-! ## Polling faster than the minimum interval -/

theorem isSensorAvailable_forcedMode (now : Nat) (s : DHT) :
    (isSensorAvailable now s).2.forcedMode = s.forcedMode := rfl

theorem isSensorAvailable_lastReadingTime (now : Nat) (s : DHT) :
    (isSensorAvailable now s).2.lastReadingTime = now % 4294967296 := rfl

theorem gateCalls_refused (ts : List Nat) :
    ∀ (t : Nat) (s : DHT), s.forcedMode = false → s.lastReadingTime = t → t < 4294967296 →
      List.Chain (fun a b => a ≤ b ∧ b < a + 2000 ∧ b < 4294967296) t ts →
      gateCalls ts s = List.replicate ts.length false := by
  induction ts with
  | nil => intro t s _ _ _ _; rfl
  | cons u us ih =>
    intro t s hf hl ht hc
    rw [List.chain_cons] at hc
    obtain ⟨⟨h1, h2, h3⟩, hrest⟩ := hc
    have hfst : (isSensorAvailable u s).1 = false := by
      rw [isSensorAvailable_fst, hf, hl, Nat.mod_eq_of_lt h3]
      simp only [Bool.false_or, decide_eq_false_iff_not, TIME_BETWEEN_SAMPLES, sub32]
      omega
    rw [gateCalls, hfst, List.length_cons, List.replicate_succ]
    congr 1
    exact ih u _ (by rw [isSensorAvailable_forcedMode]; exact hf)
      (by rw [isSensorAvailable_lastReadingTime]; exact Nat.mod_eq_of_lt h3) h3 hrest

/-- C16: with `forcedMode` off, for gate calls at clock values
`t1 ≤ t2 ≤ ..` (all below `2^32`, no wrap) each less than 2000 ms after the one
before, every `isSensorAvailable` call after the first returns `false`,
whatever the state at the first call and however long the sequence. -/
theorem gateCalls_starved (s : DHT) (t : Nat) (ts : List Nat) (hf : s.forcedMode = false)
    (ht : t < 4294967296)
    (hc : List.Chain (fun a b => a ≤ b ∧ b < a + 2000 ∧ b < 4294967296) t ts) :
    gateCalls (t :: ts) s = (isSensorAvailable t s).1 :: List.replicate ts.length false := by
  rw [gateCalls]
  congr 1
  exact gateCalls_refused ts t _ (by rw [isSensorAvailable_forcedMode]; exact hf)
    (by rw [isSensorAvailable_lastReadingTime]; exact Nat.mod_eq_of_lt ht) ht hc

theorem gateCalls_starved_witness :
    gateCalls [5000, 6500, 8000, 9500, 11000] (begin 0 sample)
      = [true, false, false, false, false] :=
  (gateCalls_starved (begin 0 sample) 5000 [6500, 8000, 9500, 11000] (by decide) (by decide)
    (by simp)).trans (by decide)

/-- C17: when `isSensorAvailable` returns `false`, `tryGetSamples` changes
nothing but the time stamp (the state afterwards is the state before with
`lastReadingTime` set to the clock value; in particular the data bytes, the
flag `timeToReadSensor`, `sensorType` and `forcedMode` are unchanged), and
`getHumidity` / `getTemperatureCelsius` return what the decoders give on the
frame acquired before: numbers if its flag is set, `NAN` if it is not. -/
theorem tryGetSamples_refused_keeps_frame (s : DHT) (now : Nat) (pulses : Nat → Nat)
    (h : (isSensorAvailable now s).1 = false) :
    tryGetSamples now pulses s = { s with lastReadingTime := now % 4294967296 }
    ∧ (tryGetSamples now pulses s).data = s.data
    ∧ (tryGetSamples now pulses s).timeToReadSensor = s.timeToReadSensor
    ∧ (tryGetSamples now pulses s).sensorType = s.sensorType
    ∧ (tryGetSamples now pulses s).forcedMode = s.forcedMode
    ∧ getHumidity now pulses s
        = (umidityAccordingSensorType s, { s with lastReadingTime := now % 4294967296 })
    ∧ getTemperatureCelsius now pulses s
        = (temperatureAccordingSensorType s, { s with lastReadingTime := now % 4294967296 })
    ∧ (s.timeToReadSensor = true →
        (getHumidity now pulses s).1 ≠ none ∧ (getTemperatureCelsius now pulses s).1 ≠ none)
    ∧ (s.timeToReadSensor = false →
        (getHumidity now pulses s).1 = none ∧ (getTemperatureCelsius now pulses s).1 = none) := by
  have e := tryGetSamples_refused s now pulses h
  have hu : getHumidity now pulses s
      = (umidityAccordingSensorType s, { s with lastReadingTime := now % 4294967296 }) := by
    simp only [getHumidity, e]
    rfl
  have ht : getTemperatureCelsius now pulses s
      = (temperatureAccordingSensorType s, { s with lastReadingTime := now % 4294967296 }) := by
    simp only [getTemperatureCelsius, e]
    rfl
  refine ⟨e, by rw [e], by rw [e], by rw [e], by rw [e], hu, ht, ?_, ?_⟩
  · intro hv
    rw [hu, ht]
    refine ⟨fun hn => ?_, fun hn => ?_⟩
    · rw [(umidity_none_iff s).mp hn] at hv
      exact Bool.noConfusion hv
    · rw [(temperature_none_iff s).mp hn] at hv
      exact Bool.noConfusion hv
  · intro hv
    rw [hu, ht]
    exact ⟨(umidity_none_iff s).mpr hv, (temperature_none_iff s).mpr hv⟩

theorem tryGetSamples_refused_keeps_frame_witness :
    tryGetSamples 5100 allTimeoutPulses afterFirstRead
      = { afterFirstRead with lastReadingTime := 5100 % 4294967296 } :=
  (tryGetSamples_refused_keeps_frame afterFirstRead 5100 allTimeoutPulses (by decide)).1

/-! ## Heat index -/

theorem heatIndexFahrenheit_of_simple_ge (sqrt : ℚ → ℚ) (T RH : ℚ)
    (h : 80 ≤ 0.5 * (T + 61.0 + ((T - 68.0) * 1.2) + (RH * 0.094))) :
    heatIndexFahrenheit sqrt T RH = 0.5 * (T + 61.0 + ((T - 68.0) * 1.2) + (RH * 0.094)) := by
  unfold heatIndexFahrenheit isAdjustmentNeed
  simp only [not_lt.mpr h, if_false, Bool.false_eq_true]

theorem getTemperatureCelsius_eq (now : Nat) (pulses : Nat → Nat) (s : DHT) :
    getTemperatureCelsius now pulses s
      = (temperatureAccordingSensorType (getTemperatureCelsius now pulses s).2,
          (getTemperatureCelsius now pulses s).2) := rfl

theorem getHumidity_refused (s : DHT) (now : Nat) (pulses : Nat → Nat)
    (h : (isSensorAvailable now s).1 = false) :
    (getHumidity now pulses s).1 = umidityAccordingSensorType s := by
  simp only [getHumidity, tryGetSamples_refused _ _ _ h]
  rfl

theorem afterWarmRead_fields :
    (isSensorAvailable 5000 (begin 0 (setSensorType DhtType.DHT22 sample))).1 = true
    ∧ afterWarmRead.timeToReadSensor = true ∧ afterWarmRead.sensorType = DhtType.DHT22
    ∧ afterWarmRead.data 0 = 0x01 ∧ afterWarmRead.data 1 = 0xF4 ∧ afterWarmRead.data 2 = 0x01
    ∧ afterWarmRead.data 3 = 0x42
    ∧ (isSensorAvailable 5100 afterWarmRead).1 = false := by
  decide

theorem getHeatIndexFahrenheit_warm_reading (sqrt : ℚ → ℚ) :
    (getHeatIndexFahrenheit sqrt 5000 (framePulses (frame 0x01 0xF4 0x01 0x42 0x38))
        5100 allTimeoutPulses (begin 0 (setSensorType DhtType.DHT22 sample))).1 = some 91.006
    ∧ rothfuszPolynomial 89.96 50 > 94 := by
  obtain ⟨-, hv, hty, d0, d1, d2, d3, hg⟩ := afterWarmRead_fields
  have ht : temperatureAccordingSensorType afterWarmRead = some 32.2 := by
    rw [temperature_dht2x afterWarmRead hv (Or.inr hty) (by rw [d3]; norm_num), d2, d3]
    have e1 : (0x01 &&& 0x80 : Nat) = 0 := by decide
    have e2 : (0x01 &&& 0x7F : Nat) = 1 := by decide
    simp only [e1, e2]
    norm_num
  have hu : umidityAccordingSensorType afterWarmRead = some 50 := by
    rw [umidity_dht2x afterWarmRead hv (Or.inr hty) (by rw [d0]; norm_num)
      (by rw [d1]; norm_num), d0, d1]
    norm_num
  have hdef : (getTemperatureCelsius 5000 (framePulses (frame 0x01 0xF4 0x01 0x42 0x38))
      (begin 0 (setSensorType DhtType.DHT22 sample))).2 = afterWarmRead := by
    unfold afterWarmRead
    rfl
  have h1 : getTemperatureFahrenheit 5000 (framePulses (frame 0x01 0xF4 0x01 0x42 0x38))
      (begin 0 (setSensorType DhtType.DHT22 sample)) = (some 89.96, afterWarmRead) := by
    unfold getTemperatureFahrenheit
    rw [getTemperatureCelsius_eq, hdef, ht]
    simp only [Option.map_some', Prod.mk.injEq, Option.some.injEq, and_true]
    norm_num
  have h2 : (getHumidity 5100 allTimeoutPulses afterWarmRead).1 = some 50 :=
    (getHumidity_refused afterWarmRead 5100 allTimeoutPulses hg).trans hu
  refine ⟨?_, ?_⟩
  · unfold getHeatIndexFahrenheit
    simp only [h1, h2]
    rw [heatIndexFahrenheit_of_simple_ge sqrt 89.96 50 (by norm_num)]
    norm_num
  · unfold rothfuszPolynomial
    norm_num

/-- C12 (failing input): at `T = 90`, `RH = 50` the simple value
`0.5 * (T + 61 + 1.2 (T - 68) + 0.094 RH) = 91.05` is not below 80, so the
heat-index computation returns 91.05; the Rothfusz polynomial (which
`heatIndexAdjustment` would compute there, no correction applying) is
94.5969412. -/
theorem heatIndexFahrenheit_90_50_is_simple (sqrt : ℚ → ℚ) :
    heatIndexFahrenheit sqrt 90 50 = 91.05
    ∧ rothfuszPolynomial 90 50 = 94.5969412
    ∧ heatIndexAdjustment sqrt 90 50 = rothfuszPolynomial 90 50
    ∧ heatIndexFahrenheit sqrt 90 50 ≠ rothfuszPolynomial 90 50 := by
  have h1 : heatIndexFahrenheit sqrt 90 50 = 91.05 := by
    rw [heatIndexFahrenheit_of_simple_ge sqrt 90 50 (by norm_num)]
    norm_num
  have h2 : rothfuszPolynomial 90 50 = 94.5969412 := by
    unfold rothfuszPolynomial
    norm_num
  have h3 : heatIndexAdjustment sqrt 90 50 = rothfuszPolynomial 90 50 := by
    unfold heatIndexAdjustment rothfuszPolynomial
    norm_num
  refine ⟨h1, h2, h3, ?_⟩
  rw [h1, h2]
  norm_num

/-- C18: for `RH > 85` and `80 ≤ T ≤ 87` (the range of `conditionAdjust2`) the
simple value `0.5 * (T + 61 + 1.2 (T - 68) + 0.094 RH)` is at least 80, so
`isAdjustmentNeed` is `false` and the heat-index computation, also when run
through `getHeatIndexFahrenheit`, returns the simple value: the branch that
adds `((RH - 85)/10) ((87 - T)/5)` to the Rothfusz polynomial is never taken. -/
theorem heatIndex_high_humidity_correction_unreachable (sqrt : ℚ → ℚ) (T RH : ℚ)
    (hRH : RH > 85) (hlo : 80 ≤ T) (_hhi : T ≤ 87) :
    0.5 * (T + 61 + 1.2 * (T - 68) + 0.094 * RH) ≥ 80
    ∧ isAdjustmentNeed (0.5 * (T + 61 + 1.2 * (T - 68) + 0.094 * RH)) = false
    ∧ heatIndexFahrenheit sqrt T RH = 0.5 * (T + 61 + 1.2 * (T - 68) + 0.094 * RH)
    ∧ ∀ (now1 : Nat) (pulses1 : Nat → Nat) (now2 : Nat) (pulses2 : Nat → Nat) (s : DHT),
        (getTemperatureFahrenheit now1 pulses1 s).1 = some T →
        (getHumidity now2 pulses2 (getTemperatureFahrenheit now1 pulses1 s).2).1 = some RH →
        (getHeatIndexFahrenheit sqrt now1 pulses1 now2 pulses2 s).1
          = some (0.5 * (T + 61 + 1.2 * (T - 68) + 0.094 * RH)) := by
  have hge : 0.5 * (T + 61 + 1.2 * (T - 68) + 0.094 * RH) ≥ 80 := by
    norm_num
    linarith
  have hge2 : 80 ≤ 0.5 * (T + 61.0 + ((T - 68.0) * 1.2) + (RH * 0.094)) := by
    norm_num
    norm_num at hge
    linarith
  have hcomp : heatIndexFahrenheit sqrt T RH
      = 0.5 * (T + 61 + 1.2 * (T - 68) + 0.094 * RH) := by
    rw [heatIndexFahrenheit_of_simple_ge sqrt T RH hge2]
    ring
  refine ⟨hge, ?_, hcomp, ?_⟩
  · unfold isAdjustmentNeed
    simp only [not_lt.mpr hge, if_false]
  · intro now1 pulses1 now2 pulses2 s h1 h2
    unfold getHeatIndexFahrenheit
    simp only [h1, h2, hcomp]

theorem heatIndex_high_humidity_correction_unreachable_witness :
    heatIndexFahrenheit (fun x => x) 85 90 = 0.5 * (85 + 61 + 1.2 * (85 - 68) + 0.094 * 90) :=
  (heatIndex_high_humidity_correction_unreachable (fun x => x) 85 90 (by norm_num)
    (by norm_num) (by norm_num)).2.2.1

/-! ## Acquisition from the pin -/

theorem expectPulseAvrLoop_timeout (modulus numberOfCycles : Nat) (level : Bool)
    (pin : Nat → Bool) (hN : numberOfCycles < modulus) (d : Nat) :
    ∀ fuel count pos, count + d = numberOfCycles → (∀ i, i ≤ d → pin (pos + i) = level) →
      d < fuel →
      expectPulseAvrLoop modulus numberOfCycles level pin fuel count pos
        = some (TIMEOUT, pos + d + 1) := by
  induction d with
  | zero =>
    intro fuel count pos hc hstay hfuel
    obtain ⟨f, rfl⟩ : ∃ f, fuel = f + 1 := ⟨fuel - 1, by omega⟩
    have h0 : pin pos = level := by simpa using hstay 0 (Nat.le_refl 0)
    rw [expectPulseAvrLoop]
    simp [h0, (by omega : count ≥ numberOfCycles)]
  | succ d ih =>
    intro fuel count pos hc hstay hfuel
    obtain ⟨f, rfl⟩ : ∃ f, fuel = f + 1 := ⟨fuel - 1, by omega⟩
    have h0 : pin pos = level := by simpa using hstay 0 (by omega)
    have hlt : ¬ count ≥ numberOfCycles := by omega
    have hm : (count + 1) % modulus = count + 1 := Nat.mod_eq_of_lt (by omega)
    rw [expectPulseAvrLoop]
    simp only [h0, if_true, hlt, if_false, hm]
    rw [ih f (count + 1) (pos + 1) (by omega)
      (fun i hi => by have := hstay (i + 1) (by omega); rwa [Nat.add_assoc, Nat.add_comm 1 i])
      (by omega)]
    congr 2
    omega

theorem expectPulse_avr_timeout (wideCount : Bool) (fuel : Nat) (s : DHT) (level : Bool)
    (pin : Nat → Bool) (hN : s.numberOfCycles < countModulus wideCount)
    (hfuel : s.numberOfCycles < fuel) (hstay : ∀ i, i ≤ s.numberOfCycles → pin i = level) :
    expectPulse true wideCount fuel s level pin = some (TIMEOUT, s.numberOfCycles + 1) := by
  have h := expectPulseAvrLoop_timeout (countModulus wideCount) s.numberOfCycles level pin hN
    s.numberOfCycles fuel 0 0 (by omega) (fun i hi => by rw [Nat.zero_add]; exact hstay i hi)
    hfuel
  simp only [expectPulse, if_true]
  rw [h]
  simp

theorem expectPulse_first_sample_away (avr wideCount : Bool) (fuel : Nat) (s : DHT)
    (level : Bool) (pin : Nat → Bool) (hp : pin 0 ≠ level) (hfuel : 0 < fuel) :
    expectPulse avr wideCount fuel s level pin = some (0, 1) := by
  obtain ⟨f, rfl⟩ : ∃ f, fuel = f + 1 := ⟨fuel - 1, by omega⟩
  cases avr <;> simp [expectPulse, expectPulseAvrLoop, expectPulseGenericLoop, hp]

theorem capturePulses_stuckHigh (wideCount : Bool) (fuel : Nat) (s : DHT)
    (hN : s.numberOfCycles < countModulus wideCount) (hfuel : s.numberOfCycles < fuel) (k : Nat) :
    ∀ level, capturePulses true wideCount fuel s k level stuckHigh
      = some (alternating k (if level = true then TIMEOUT else 0)
          (if level = true then 0 else TIMEOUT)) := by
  induction k with
  | zero => intro level; rfl
  | succ k ih =>
    intro level
    have hshift : ∀ n, (fun i => stuckHigh (n + i)) = stuckHigh := fun n => rfl
    cases level
    · rw [capturePulses, expectPulse_first_sample_away true wideCount fuel s false stuckHigh
        (by decide) (by omega)]
      simp only [hshift, Bool.not_false]
      rw [ih true]
      simp [alternating]
    · rw [capturePulses, expectPulse_avr_timeout wideCount fuel s true stuckHigh hN hfuel
        (fun _ _ => rfl)]
      simp only [hshift, Bool.not_true]
      rw [ih false]
      simp [alternating]

theorem squareWave_first (half : Nat) (first : Bool) (i : Nat) (hi : i < half) :
    squareWave half first i = first := by
  simp [squareWave, Nat.div_eq_of_lt hi]

theorem squareWave_shift (half : Nat) (first : Bool) (hpos : 0 < half) :
    (fun i => squareWave half first (half + i)) = squareWave half (!first) := by
  funext i
  have hdiv : (half + i) / half = i / half + 1 := by
    rw [Nat.add_comm, Nat.add_div_right i hpos]
  simp only [squareWave, hdiv]
  rcases Nat.mod_two_eq_zero_or_one (i / half) with h | h
  · have h2 : (i / half + 1) % 2 = 1 := by omega
    simp [h, h2]
  · have h2 : (i / half + 1) % 2 = 0 := by omega
    simp [h, h2]

theorem capturePulses_squareWave (wideCount : Bool) (fuel : Nat) (s : DHT)
    (hN : s.numberOfCycles < countModulus wideCount) (hfuel : s.numberOfCycles < fuel) (k : Nat) :
    ∀ level, capturePulses true wideCount fuel s k level
        (squareWave (s.numberOfCycles + 1) level) = some (List.replicate k TIMEOUT) := by
  induction k with
  | zero => intro level; rfl
  | succ k ih =>
    intro level
    rw [capturePulses, expectPulse_avr_timeout wideCount fuel s level _ hN hfuel
      (fun i hi => squareWave_first _ _ i (by omega))]
    simp only [squareWave_shift _ level (Nat.succ_pos _)]
    rw [ih (!level)]
    simp [List.replicate_succ]

theorem alternating_getD (k : Nat) :
    ∀ a b i, i < k → (alternating k a b).getD i 0 = if i % 2 = 0 then a else b := by
  induction k with
  | zero => intro a b i hi; omega
  | succ k ih =>
    intro a b i hi
    cases i with
    | zero => simp [alternating]
    | succ i =>
      rw [alternating, List.getD_cons_succ, ih b a i (by omega)]
      rcases Nat.mod_two_eq_zero_or_one i with h | h
      · have h2 : (i + 1) % 2 = 1 := by omega
        simp [h, h2]
      · have h2 : (i + 1) % 2 = 0 := by omega
        simp [h, h2]

theorem getSamples_of_zero_timeout_pairs (pulses : Nat → Nat) (s : DHT)
    (h : ∀ i, i < 82 → pulses i = if i % 2 = 0 then 0 else TIMEOUT) :
    (∀ k, k < 5 → (getSamples pulses s).data k = 0xFF)
    ∧ (getSamples pulses s).timeToReadSensor = false := by
  have hd : ∀ k, k < 5 → (getSamples pulses s).data k = 0xFF := by
    intro k hk
    unfold getSamples
    rw [isChecksumPassed_data, getDataMeasure_data_sum _ _ k hk]
    have hterm : ∀ j, j ∈ Finset.range 8 →
        pulseBit (pulses (2 + 2 * (8 * k + j))) (pulses (2 + (2 * (8 * k + j) + 1))) * 2 ^ (7 - j)
          = 2 ^ (7 - j) := by
      intro j hj
      have hj8 : j < 8 := Finset.mem_range.mp hj
      rw [h (2 + 2 * (8 * k + j)) (by omega), h (2 + (2 * (8 * k + j) + 1)) (by omega)]
      have e1 : (2 + 2 * (8 * k + j)) % 2 = 0 := by omega
      have e2 : ¬ (2 + (2 * (8 * k + j) + 1)) % 2 = 0 := by omega
      rw [if_pos e1, if_neg e2]
      simp [pulseBit, TIMEOUT]
    rw [Finset.sum_congr rfl hterm]
    decide
  refine ⟨hd, ?_⟩
  rw [getSamples_flag, hd 0 (by norm_num), hd 1 (by norm_num), hd 2 (by norm_num),
    hd 3 (by norm_num), hd 4 (by norm_num)]
  decide

theorem getSamplesFromPin_stuckHigh (wideCount : Bool) (fuel : Nat) (s : DHT)
    (hN : s.numberOfCycles < countModulus wideCount) (hfuel : s.numberOfCycles < fuel) :
    getSamplesFromPin true wideCount fuel stuckHigh s
      = some (getSamples stuckHighPulses s) := by
  unfold getSamplesFromPin stuckHighPulses
  have h := capturePulses_stuckHigh wideCount fuel s hN hfuel 82 false
  simp only [Bool.false_eq_true, if_false] at h
  have e : 2 + TIME_PER_CYCLE_MICROSEC = 82 := rfl
  rw [e, h]

theorem getSamplesFromPin_generic_stuckHigh (wideCount : Bool) (fuel : Nat) (s : DHT) :
    getSamplesFromPin false wideCount fuel stuckHigh s = none := by
  unfold getSamplesFromPin
  have e : 2 + TIME_PER_CYCLE_MICROSEC = 80 + 1 + 1 := rfl
  rw [e, capturePulses]
  cases fuel with
  | zero => simp [expectPulse, expectPulseGenericLoop]
  | succ f =>
    rw [expectPulse_first_sample_away false wideCount (f + 1) s false stuckHigh (by decide)
      (by omega)]
    have hshift : (fun i => stuckHigh (1 + i)) = fun _ => true := rfl
    simp only [Bool.not_false, hshift]
    rw [capturePulses]
    have hstuck : expectPulse false wideCount (f + 1) s true (fun _ => true) = none := by
      simp only [expectPulse, Bool.false_eq_true, if_false]
      exact expectPulseGenericLoop_stuck _ _ _ _ _ _
    rw [hstuck]

theorem stuckHighPulses_eq (i : Nat) (hi : i < 82) :
    stuckHighPulses i = if i % 2 = 0 then 0 else TIMEOUT :=
  alternating_getD 82 0 TIMEOUT i hi

/-- C15 (counterexample): a sensor that never answers leaves the pulled-up
line high.  On the AVR path (16 MHz board) the 82 measurements are then
`0, TIMEOUT, 0, TIMEOUT, ..`, not all `TIMEOUT`; the frame is `FF FF FF FF FF`,
the checksum fails, the flag is cleared and both decoders return `NAN`.  On
the generic path the acquisition does not return, whatever the fuel. -/
theorem stuckHigh_line_not_valid_zero :
    capturePulses true false 16001 sampleAvr 82 false stuckHigh
      = some (alternating 82 0 TIMEOUT)
    ∧ getSamplesFromPin true false 16001 stuckHigh sampleAvr
      = some (getSamples stuckHighPulses sampleAvr)
    ∧ (getSamples stuckHighPulses sampleAvr).data 0 = 0xFF
    ∧ (getSamples stuckHighPulses sampleAvr).data 4 = 0xFF
    ∧ (getSamples stuckHighPulses sampleAvr).timeToReadSensor = false
    ∧ temperatureAccordingSensorType (getSamples stuckHighPulses sampleAvr) = none
    ∧ umidityAccordingSensorType (getSamples stuckHighPulses sampleAvr) = none
    ∧ ∀ fuel, getSamplesFromPin false true fuel stuckHigh sample = none := by
  have hc := capturePulses_stuckHigh false 16001 sampleAvr (by decide) (by decide) 82 false
  simp only [Bool.false_eq_true, if_false] at hc
  have hz := getSamples_of_zero_timeout_pairs stuckHighPulses sampleAvr stuckHighPulses_eq
  exact ⟨hc, getSamplesFromPin_stuckHigh false 16001 sampleAvr (by decide) (by decide),
    hz.1 0 (by norm_num), hz.1 4 (by norm_num), hz.2,
    (temperature_none_iff _).mpr hz.2, (umidity_none_iff _).mpr hz.2,
    fun fuel => getSamplesFromPin_generic_stuckHigh true fuel sample⟩

/-- C15 (amended): if all 82 pulse measurements of an acquisition
(`getSamples`) are the timeout sentinel, then afterwards the five data bytes
are zero and the validity flag `timeToReadSensor` is set, so for every sensor
family both decoders return the number 0, not `NAN`.  A sensor that never
answers does not produce these measurements: with the line staying high the
AVR path measures `0, TIMEOUT, 0, TIMEOUT, ..`, the frame is `FF FF FF FF FF`,
the checksum fails and both decoders return `NAN`. -/
theorem getSamples_all_timeouts_valid_zero (pulses : Nat → Nat) (s : DHT)
    (h : ∀ i, i < 82 → pulses i = TIMEOUT) :
    ((∀ k, k < 5 → (getSamples pulses s).data k = 0)
      ∧ (getSamples pulses s).timeToReadSensor = true
      ∧ temperatureAccordingSensorType (getSamples pulses s) = some 0
      ∧ umidityAccordingSensorType (getSamples pulses s) = some 0)
    ∧ ∀ (wideCount : Bool) (fuel : Nat), s.numberOfCycles < countModulus wideCount →
        s.numberOfCycles < fuel →
        getSamplesFromPin true wideCount fuel stuckHigh s = some (getSamples stuckHighPulses s)
        ∧ (∀ k, k < 5 → (getSamples stuckHighPulses s).data k = 0xFF)
        ∧ (getSamples stuckHighPulses s).timeToReadSensor = false
        ∧ temperatureAccordingSensorType (getSamples stuckHighPulses s) = none
        ∧ umidityAccordingSensorType (getSamples stuckHighPulses s) = none := by
  have hd : ∀ k, k < 5 → (getSamples pulses s).data k = 0 := by
    intro k hk
    unfold getSamples
    rw [isChecksumPassed_data, getDataMeasure_data_sum _ _ k hk]
    apply Finset.sum_eq_zero
    intro j hj
    have hj8 : j < 8 := Finset.mem_range.mp hj
    rw [h (2 + 2 * (8 * k + j)) (by omega), h (2 + (2 * (8 * k + j) + 1)) (by omega)]
    simp [pulseBit]
  have hv : (getSamples pulses s).timeToReadSensor = true := by
    rw [getSamples_flag, hd 0 (by norm_num), hd 1 (by norm_num), hd 2 (by norm_num),
      hd 3 (by norm_num), hd 4 (by norm_num)]
    decide
  have hz := decoders_zero_frame _ hv (hd 0 (by norm_num)) (hd 1 (by norm_num))
    (hd 2 (by norm_num)) (hd 3 (by norm_num))
  refine ⟨⟨hd, hv, hz.1, hz.2⟩, ?_⟩
  intro wideCount fuel hN hfuel
  have hs := getSamples_of_zero_timeout_pairs stuckHighPulses s stuckHighPulses_eq
  exact ⟨getSamplesFromPin_stuckHigh wideCount fuel s hN hfuel, hs.1, hs.2,
    (temperature_none_iff _).mpr hs.2, (umidity_none_iff _).mpr hs.2⟩

theorem capturedTimeouts_eq : ∀ i, i < 82 → capturedTimeouts i = TIMEOUT := by
  decide

theorem getSamples_all_timeouts_valid_zero_witness :
    capturePulses true false 16001 sampleAvr 82 false (squareWave 16001 false)
      = some (List.replicate 82 TIMEOUT)
    ∧ (getSamples capturedTimeouts sampleAvr).timeToReadSensor = true
    ∧ umidityAccordingSensorType (getSamples capturedTimeouts sampleAvr) = some 0 :=
  ⟨capturePulses_squareWave false 16001 sampleAvr (by decide) (by decide) 82 false,
   (getSamples_all_timeouts_valid_zero capturedTimeouts sampleAvr capturedTimeouts_eq).1.2.1,
   (getSamples_all_timeouts_valid_zero capturedTimeouts sampleAvr
      capturedTimeouts_eq).1.2.2.2⟩

/-! ## Rounding -/

theorem roundHalfEven_error (q : ℚ) : |((roundHalfEven q : ℤ) : ℚ) - q| ≤ 1 / 2 := by
  have hf := Int.floor_le q
  have hl := Int.lt_floor_add_one q
  unfold roundHalfEven
  split_ifs <;> rw [abs_le] <;> constructor <;> push_cast <;> linarith

theorem roundHalfEven_eq_of_close (q : ℚ) (m : ℤ) (h : |q - m| < 1 / 2) :
    roundHalfEven q = m := by
  rw [abs_lt] at h
  obtain ⟨h1, h2⟩ := h
  unfold roundHalfEven
  by_cases hq : (m : ℚ) ≤ q
  · have hfl : ⌊q⌋ = m := Int.floor_eq_iff.mpr ⟨hq, by linarith⟩
    rw [hfl, if_pos (by linarith)]
  · have hfl : ⌊q⌋ = m - 1 :=
      Int.floor_eq_iff.mpr ⟨by push_cast; linarith, by push_cast; linarith⟩
    rw [hfl, if_neg (by push_cast; linarith), if_pos (by push_cast; linarith)]
    ring

theorem log_two_eq (x : ℚ) (e : ℤ) (hx : 0 < x) (h1 : (2 : ℚ) ^ e ≤ x)
    (h2 : x < (2 : ℚ) ^ (e + 1)) : Int.log 2 x = e := by
  apply le_antisymm
  · have := (Int.lt_zpow_iff_log_lt (b := 2) one_lt_two hx (x := e + 1)).mp
      (by simpa using h2)
    omega
  · exact (Int.zpow_le_iff_le_log (b := 2) one_lt_two hx).mp (by simpa using h1)

theorem roundFloat_eq (p : Nat) (x : ℚ) (e m : ℤ) (hx : x ≠ 0) (h1 : (2 : ℚ) ^ e ≤ |x|)
    (h2 : |x| < (2 : ℚ) ^ (e + 1)) (hm : |x / 2 ^ (e + 1 - (p : ℤ)) - m| < 1 / 2) :
    roundFloat p x = (m : ℚ) * 2 ^ (e + 1 - (p : ℤ)) := by
  unfold roundFloat
  rw [if_neg hx, log_two_eq |x| e (abs_pos.mpr hx) h1 h2, roundHalfEven_eq_of_close _ m hm]

theorem roundFloat_error (p : Nat) (x : ℚ) : |roundFloat p x - x| ≤ |x| / 2 ^ p := by
  unfold roundFloat
  by_cases hx : x = 0
  · simp [hx]
  · rw [if_neg hx]
    have hpos : (0 : ℚ) < 2 ^ (Int.log 2 |x| + 1 - (p : ℤ)) := by positivity
    have hlog : (2 : ℚ) ^ (Int.log 2 |x|) ≤ |x| := by
      simpa using Int.zpow_log_le_self (b := 2) one_lt_two (abs_pos.mpr hx)
    have hu : (2 : ℚ) ^ (Int.log 2 |x| + 1 - (p : ℤ)) = 2 ^ (Int.log 2 |x|) * 2 / 2 ^ p := by
      rw [zpow_sub₀ (by norm_num), zpow_add₀ (by norm_num), zpow_one, zpow_natCast]
    have hr := roundHalfEven_error (x / 2 ^ (Int.log 2 |x| + 1 - (p : ℤ)))
    have heq : ((roundHalfEven (x / 2 ^ (Int.log 2 |x| + 1 - (p : ℤ))) : ℤ) : ℚ)
          * 2 ^ (Int.log 2 |x| + 1 - (p : ℤ)) - x
        = (((roundHalfEven (x / 2 ^ (Int.log 2 |x| + 1 - (p : ℤ))) : ℤ) : ℚ)
            - x / 2 ^ (Int.log 2 |x| + 1 - (p : ℤ))) * 2 ^ (Int.log 2 |x| + 1 - (p : ℤ)) := by
      field_simp
    rw [heq, abs_mul, abs_of_pos hpos]
    have hp2 : (0 : ℚ) < 2 ^ p := by positivity
    calc |((roundHalfEven (x / 2 ^ (Int.log 2 |x| + 1 - (p : ℤ))) : ℤ) : ℚ)
            - x / 2 ^ (Int.log 2 |x| + 1 - (p : ℤ))| * 2 ^ (Int.log 2 |x| + 1 - (p : ℤ))
        ≤ 1 / 2 * 2 ^ (Int.log 2 |x| + 1 - (p : ℤ)) :=
          mul_le_mul_of_nonneg_right hr hpos.le
      _ = 2 ^ (Int.log 2 |x|) / 2 ^ p := by rw [hu]; ring
      _ ≤ |x| / 2 ^ p := div_le_div_of_nonneg_right hlog hp2.le

theorem roundFloat_error_wide (D : Nat) (hD : 24 ≤ D) (x : ℚ) :
    |roundFloat D x - x| ≤ |x| / 16777216 := by
  have hp : (16777216 : ℚ) ≤ 2 ^ D := by
    have h24 : (2 : ℚ) ^ 24 ≤ 2 ^ D := pow_le_pow_right₀ (by norm_num) hD
    norm_num at h24
    exact h24
  calc |roundFloat D x - x| ≤ |x| / 2 ^ D := roundFloat_error D x
    _ ≤ |x| / 16777216 := div_le_div_of_nonneg_left (abs_nonneg x) (by norm_num) hp

theorem scaled_tenth_error (D : Nat) (hD : 24 ≤ D) (a : ℚ) (h0 : 0 ≤ a) (h1 : a ≤ 65535) :
    |roundFloat 24 (roundFloat D (roundFloat 24 a * roundFloat D (1 / 10))) - a / 10|
        ≤ 26231 / 16777216
    ∧ |roundFloat 24 (roundFloat D (roundFloat 24 a * roundFloat D (1 / 10)))| ≤ 6555 := by
  have hw := roundFloat_error_wide 24 le_rfl a
  have hc := roundFloat_error_wide D hD (1 / 10)
  have hy := roundFloat_error_wide D hD (roundFloat 24 a * roundFloat D (1 / 10))
  have hz := roundFloat_error_wide 24 le_rfl
    (roundFloat D (roundFloat 24 a * roundFloat D (1 / 10)))
  generalize roundFloat 24 (roundFloat D (roundFloat 24 a * roundFloat D (1 / 10))) = z at *
  generalize roundFloat D (roundFloat 24 a * roundFloat D (1 / 10)) = y at *
  generalize roundFloat 24 a = w at *
  generalize roundFloat D (1 / 10) = c at *
  rw [abs_of_nonneg h0, abs_le] at hw
  rw [abs_of_pos (by norm_num : (0 : ℚ) < 1 / 10), abs_le] at hc
  obtain ⟨hw1, hw2⟩ := hw
  obtain ⟨hc1, hc2⟩ := hc
  have w0 : 0 ≤ w := by linarith
  have w1 : w ≤ 65536 := by linarith
  have c0 : 0 ≤ c := by linarith
  have c1 : c ≤ 1001 / 10000 := by linarith
  have wc0 : 0 ≤ w * c := mul_nonneg w0 c0
  have wc1 : w * c ≤ 6561 := by nlinarith
  rw [abs_of_nonneg wc0, abs_le] at hy
  obtain ⟨hy1, hy2⟩ := hy
  have y0 : 0 ≤ y := by linarith
  have y1 : y ≤ 6562 := by linarith
  rw [abs_of_nonneg y0, abs_le] at hz
  obtain ⟨hz1, hz2⟩ := hz
  have k1 : w * (c - 1 / 10) ≤ 65536 * (1 / 10 / 16777216) := by nlinarith
  have k2 : -(65536 * (1 / 10 / 16777216)) ≤ w * (c - 1 / 10) := by nlinarith
  refine ⟨?_, ?_⟩
  · rw [abs_le]
    constructor <;> linarith
  · rw [abs_le]
    constructor <;> linarith

theorem roundFloat_eq_pos (p : Nat) (x : ℚ) (e m : ℤ) (hx : 0 < x) (h1 : (2 : ℚ) ^ e ≤ x)
    (h2 : x < (2 : ℚ) ^ (e + 1)) (hm1 : (m : ℚ) - 1 / 2 < x / 2 ^ (e + 1 - (p : ℤ)))
    (hm2 : x / 2 ^ (e + 1 - (p : ℤ)) < (m : ℚ) + 1 / 2) :
    roundFloat p x = (m : ℚ) * 2 ^ (e + 1 - (p : ℤ)) :=
  roundFloat_eq p x e m hx.ne' (by rwa [abs_of_pos hx]) (by rwa [abs_of_pos hx])
    (by rw [abs_lt]; constructor <;> linarith)

theorem roundFloat_eq_neg (p : Nat) (x : ℚ) (e m : ℤ) (hx : x < 0) (h1 : (2 : ℚ) ^ e ≤ -x)
    (h2 : -x < (2 : ℚ) ^ (e + 1)) (hm1 : (m : ℚ) - 1 / 2 < x / 2 ^ (e + 1 - (p : ℤ)))
    (hm2 : x / 2 ^ (e + 1 - (p : ℤ)) < (m : ℚ) + 1 / 2) :
    roundFloat p x = (m : ℚ) * 2 ^ (e + 1 - (p : ℤ)) :=
  roundFloat_eq p x e m hx.ne (by rwa [abs_of_neg hx]) (by rwa [abs_of_neg hx])
    (by rw [abs_lt]; constructor <;> linarith)

theorem roundFloat_tenth_binary64 :
    roundFloat 53 (1 / 10) = 3602879701896397 / 36028797018963968 := by
  rw [roundFloat_eq_pos 53 (1 / 10) (-4) 7205759403792794 (by norm_num) (by norm_num)
    (by norm_num) (by norm_num) (by norm_num)]
  norm_num

theorem umidityFloat_dht2x (D : Nat) (s : DHT) (hv : s.timeToReadSensor = true)
    (ht : s.sensorType = DhtType.DHT21 ∨ s.sensorType = DhtType.DHT22)
    (h0 : s.data 0 < 256) (h1 : s.data 1 < 256) :
    umidityFloat D s = some (roundFloat 24 (roundFloat D
      (roundFloat 24 ((256 * s.data 0 + s.data 1 : Nat) : ℚ) * roundFloat D (1 / 10)))) := by
  have w0 := word_of_bytes _ _ h0 h1
  rcases ht with ht | ht <;> simp only [umidityFloat, hv, ht, if_true, w0]

theorem temperatureFloat_dht2x (D : Nat) (s : DHT) (hv : s.timeToReadSensor = true)
    (ht : s.sensorType = DhtType.DHT21 ∨ s.sensorType = DhtType.DHT22)
    (h3 : s.data 3 < 256) :
    temperatureFloat D s
      = some (if s.data 2 &&& 0x80 ≠ 0 then
          roundFloat 24 (roundFloat 24 (roundFloat D
            (roundFloat 24 ((256 * (s.data 2 &&& 0x7F) + s.data 3 : Nat) : ℚ)
              * roundFloat D (1 / 10))) * (-1))
        else roundFloat 24 (roundFloat D
            (roundFloat 24 ((256 * (s.data 2 &&& 0x7F) + s.data 3 : Nat) : ℚ)
              * roundFloat D (1 / 10)))) := by
  have w2 : ((s.data 2 &&& 0x7F) <<< 8) % 65536 ||| s.data 3
      = 256 * (s.data 2 &&& 0x7F) + s.data 3 :=
    word_of_bytes _ _ (by rw [and_127_eq_mod]; omega) h3
  rcases ht with ht | ht <;> simp only [temperatureFloat, hv, ht, if_true, w2]

theorem scaled_652_binary64 :
    roundFloat 24 (roundFloat 53 (roundFloat 24 652 * roundFloat 53 (1 / 10)))
      = 4272947 / 65536 := by
  have w : roundFloat 24 652 = 652 := by
    rw [roundFloat_eq_pos 24 652 9 10682368 (by norm_num) (by norm_num) (by norm_num)
      (by norm_num) (by norm_num)]
    norm_num
  have y : roundFloat 53 (652 * (3602879701896397 / 36028797018963968))
      = 4588042120383693 / 70368744177664 := by
    rw [roundFloat_eq_pos 53 _ 6 4588042120383693 (by norm_num) (by norm_num) (by norm_num)
      (by norm_num) (by norm_num)]
    norm_num
  rw [w, roundFloat_tenth_binary64, y,
    roundFloat_eq_pos 24 _ 6 8545894 (by norm_num) (by norm_num) (by norm_num)
      (by norm_num) (by norm_num)]
  norm_num

theorem scaled_101_binary64 :
    roundFloat 24 (roundFloat 24 (roundFloat 53 (roundFloat 24 101 * roundFloat 53 (1 / 10)))
      * (-1)) = -5295309 / 524288 := by
  have w : roundFloat 24 101 = 101 := by
    rw [roundFloat_eq_pos 24 101 6 13238272 (by norm_num) (by norm_num) (by norm_num)
      (by norm_num) (by norm_num)]
    norm_num
  have y : roundFloat 53 (101 * (3602879701896397 / 36028797018963968))
      = 1421448632388813 / 140737488355328 := by
    rw [roundFloat_eq_pos 53 _ 3 5685794529555252 (by norm_num) (by norm_num) (by norm_num)
      (by norm_num) (by norm_num)]
    norm_num
  have z : roundFloat 24 (1421448632388813 / 140737488355328) = 5295309 / 524288 := by
    rw [roundFloat_eq_pos 24 _ 3 10590618 (by norm_num) (by norm_num) (by norm_num)
      (by norm_num) (by norm_num)]
    norm_num
  rw [w, roundFloat_tenth_binary64, y, z,
    roundFloat_eq_neg 24 _ 3 (-10590618) (by norm_num) (by norm_num) (by norm_num)
      (by norm_num) (by norm_num)]
  norm_num

theorem encoded_652_m101_fields :
    (isChecksumPassed (withData (setSensorType DhtType.DHT22 sample)
        (encodeDHT22 652 (-101)))).timeToReadSensor = true
    ∧ (isChecksumPassed (withData (setSensorType DhtType.DHT22 sample)
        (encodeDHT22 652 (-101)))).sensorType = DhtType.DHT22
    ∧ (isChecksumPassed (withData (setSensorType DhtType.DHT22 sample)
        (encodeDHT22 652 (-101)))).data 0 = 0x02
    ∧ (isChecksumPassed (withData (setSensorType DhtType.DHT22 sample)
        (encodeDHT22 652 (-101)))).data 1 = 0x8C
    ∧ (isChecksumPassed (withData (setSensorType DhtType.DHT22 sample)
        (encodeDHT22 652 (-101)))).data 2 = 0x80
    ∧ (isChecksumPassed (withData (setSensorType DhtType.DHT22 sample)
        (encodeDHT22 652 (-101)))).data 3 = 0x65 := by
  decide

/-- C9 (counterexample): the DHT22 frame encoding `h = 652`, `t = -101` is
accepted, and with `float` as binary32 and `double` as binary64 the decoders
return 4272947/65536 = 65.19999695 and -5295309/524288 = -10.10000038, not
652/10 and -101/10. -/
theorem decode_encodeDHT22_not_exact :
    (isChecksumPassed (withData (setSensorType DhtType.DHT22 sample)
        (encodeDHT22 652 (-101)))).timeToReadSensor = true
    ∧ umidityFloat 53 (isChecksumPassed (withData (setSensorType DhtType.DHT22 sample)
        (encodeDHT22 652 (-101)))) = some (4272947 / 65536)
    ∧ (4272947 / 65536 : ℚ) ≠ 652 / 10
    ∧ temperatureFloat 53 (isChecksumPassed (withData (setSensorType DhtType.DHT22 sample)
        (encodeDHT22 652 (-101)))) = some (-5295309 / 524288)
    ∧ (-5295309 / 524288 : ℚ) ≠ -101 / 10 := by
  obtain ⟨hv, hty, d0, d1, d2, d3⟩ := encoded_652_m101_fields
  refine ⟨hv, ?_, by norm_num, ?_, by norm_num⟩
  · rw [umidityFloat_dht2x 53 _ hv (Or.inr hty) (by rw [d0]; norm_num) (by rw [d1]; norm_num),
      d0, d1]
    have e : ((256 * 0x02 + 0x8C : Nat) : ℚ) = 652 := by norm_num
    rw [e, scaled_652_binary64]
  · rw [temperatureFloat_dht2x 53 _ hv (Or.inr hty) (by rw [d3]; norm_num), d2, d3]
    have e1 : (0x80 &&& 0x80 : Nat) ≠ 0 := by decide
    have e2 : (0x80 &&& 0x7F : Nat) = 0 := by decide
    rw [if_pos e1, e2]
    have e : ((256 * 0 + 0x65 : Nat) : ℚ) = 101 := by norm_num
    rw [e, scaled_101_binary64]

/-- C9 (amended): for `0 ≤ h ≤ 65535` and `-32767 ≤ t ≤ 32767` the DHT21/DHT22
frame built by the standard encoding (`encodeDHT22`) is accepted by
`isChecksumPassed` and decodes, in floating-point arithmetic (`float` binary32,
`double` with a significand of at least 24 bits), to numbers within 0.002 of
`h / 10` and `t / 10`: decode undoes encode at 0.1 precision, up to the
rounding of `float`. -/
theorem decode_encodeDHT22_float (D : Nat) (s : DHT) (h : Nat) (t : Int) (hD : 24 ≤ D)
    (hty : s.sensorType = DhtType.DHT21 ∨ s.sensorType = DhtType.DHT22)
    (hh : h ≤ 65535) (hlo : -32767 ≤ t) (hhi : t ≤ 32767) :
    (isChecksumPassed (withData s (encodeDHT22 h t))).timeToReadSensor = true
    ∧ (∃ u, umidityFloat D (isChecksumPassed (withData s (encodeDHT22 h t))) = some u
        ∧ |u - (h : ℚ) / 10| ≤ 1 / 500)
    ∧ (∃ v, temperatureFloat D (isChecksumPassed (withData s (encodeDHT22 h t))) = some v
        ∧ |v - (t : ℚ) / 10| ≤ 1 / 500) := by
  have hv : (isChecksumPassed (withData s (encodeDHT22 h t))).timeToReadSensor = true := by
    rw [isChecksumPassed_flag]; simp [withData, encodeDHT22, frame]
  have hty2 : (isChecksumPassed (withData s (encodeDHT22 h t))).sensorType = DhtType.DHT21
      ∨ (isChecksumPassed (withData s (encodeDHT22 h t))).sensorType = DhtType.DHT22 := by
    rw [isChecksumPassed_sensorType]; exact hty
  have hx : t.natAbs / 256 < 128 := by omega
  have hbits := sign_byte_bits (t.natAbs / 256) hx
  refine ⟨hv, ?_, ?_⟩
  · rw [umidityFloat_dht2x D _ hv hty2
      (by rw [isChecksumPassed_data]; simp [withData, encodeDHT22, frame]; omega)
      (by rw [isChecksumPassed_data]; simp [withData, encodeDHT22, frame]; omega)]
    simp only [isChecksumPassed_data, withData, encodeDHT22, frame]
    rw [(by omega : 256 * (h / 256) + h % 256 = h)]
    refine ⟨_, rfl, ?_⟩
    have hb := (scaled_tenth_error D hD (h : ℚ) (by positivity) (by exact_mod_cast hh)).1
    linarith
  · rw [temperatureFloat_dht2x D _ hv hty2
      (by rw [isChecksumPassed_data]; simp [withData, encodeDHT22, frame]; omega)]
    simp only [isChecksumPassed_data, withData, encodeDHT22, frame]
    have hb := scaled_tenth_error D hD (t.natAbs : ℚ) (by positivity)
      (by exact_mod_cast (by omega : t.natAbs ≤ 65535))
    by_cases hneg : t < 0
    · simp only [hneg, if_true, hbits.2.1, hbits.2.2, ne_eq, not_false_eq_true]
      rw [(by omega : 256 * (t.natAbs / 256) + t.natAbs % 256 = t.natAbs)]
      refine ⟨_, rfl, ?_⟩
      have e2 : (t.natAbs : Int) = -t := by omega
      have e3 : (t : ℚ) = -((t.natAbs : ℕ) : ℚ) := by
        rw [← Int.cast_natCast, e2, Int.cast_neg, neg_neg]
      have hn := roundFloat_error_wide 24 le_rfl
        (roundFloat 24 (roundFloat D (roundFloat 24 (t.natAbs : ℚ) * roundFloat D (1 / 10)))
          * (-1))
      rw [abs_mul, abs_neg, abs_one, mul_one] at hn
      rw [e3]
      generalize roundFloat 24 (roundFloat 24 (roundFloat D
        (roundFloat 24 (t.natAbs : ℚ) * roundFloat D (1 / 10))) * (-1)) = v at *
      generalize roundFloat 24 (roundFloat D
        (roundFloat 24 (t.natAbs : ℚ) * roundFloat D (1 / 10))) = z at *
      obtain ⟨hb1, hb2⟩ := hb
      rw [abs_le] at hb1 hn ⊢
      constructor <;> linarith [hb1.1, hb1.2, hn.1, hn.2]
    · simp only [hneg, if_false, Nat.add_zero, hbits.1.1, hbits.1.2, ne_eq, not_true_eq_false]
      rw [(by omega : 256 * (t.natAbs / 256) + t.natAbs % 256 = t.natAbs)]
      refine ⟨_, rfl, ?_⟩
      have e2 : (t.natAbs : Int) = t := by omega
      have e3 : (t : ℚ) = ((t.natAbs : ℕ) : ℚ) := by
        rw [← Int.cast_natCast, e2]
      rw [e3]
      linarith [hb.1]

theorem decode_encodeDHT22_float_witness :
    ∃ u, umidityFloat 53 (isChecksumPassed (withData (setSensorType DhtType.DHT22 sample)
        (encodeDHT22 652 (-101)))) = some u ∧ |u - ((652 : Nat) : ℚ) / 10| ≤ 1 / 500 :=
  (decode_encodeDHT22_float 53 (setSensorType DhtType.DHT22 sample) 652 (-101) (by decide)
    (Or.inr rfl) (by decide) (by decide) (by decide)).2.1

end DhtMaster
